import Mathlib

/-!
Verification of the Scroller repository's URL validation / repair pipeline
(`Scroller_Deploy/app.py`) and its search aggregation pipeline (`api.py`)
against the natural-language specification.

The Python code is shallowly embedded: network requests and other external
effects (HTTP responses, HTML parsing, the system clock) are passed in as
explicit oracle values, and every pure string manipulation of the source is
reimplemented on `List Char` so that all definitions compute by kernel
reduction.
-/

namespace Scroller

/-! ## String primitives

Python string operations used by the source, implemented on `List Char`.
All definitions are structurally recursive so that `decide` can evaluate
them. -/

/-- Character-list version of "p is a leading segment of s" (used to embed
Python's `str.startswith` and the matching step of `str.replace`). -/
def listLeads : List Char → List Char → Bool
  | [], _ => true
  | _ :: _, [] => false
  | a :: as, b :: bs => a = b && listLeads as bs

/-- Python `s.startswith(p)`. -/
def strStarts (s p : String) : Bool := listLeads p.data s.data

/-- Python `s.endswith(p)`. -/
def strEnds (s p : String) : Bool := listLeads p.data.reverse s.data.reverse

/-- Python `c in s` for a single character. -/
def strHasChar (s : String) (c : Char) : Bool := s.data.contains c

/-- Occurrence test: Python `pat in s` (the empty pattern occurs anywhere). -/
def subOccurs (pat : List Char) : List Char → Bool
  | [] => pat.isEmpty
  | c :: rest => listLeads pat (c :: rest) || subOccurs pat rest

/-- Python `p in s` on strings. -/
def strHasSub (s p : String) : Bool := subOccurs p.data s.data

/-- Helper for `pyReplace`: while `skip > 0` the characters still belong to a
pattern occurrence that was already rewritten, so they are dropped. -/
def replaceStep (pat rep : List Char) : Nat → List Char → List Char
  | _ + 1, [] => []
  | 0, [] => []
  | k + 1, _ :: rest => replaceStep pat rep k rest
  | 0, c :: rest =>
    if listLeads pat (c :: rest) then
      rep ++ replaceStep pat rep (pat.length - 1) rest
    else
      c :: replaceStep pat rep 0 rest

/-- Python `s.replace(pat, rep)`: every non-overlapping occurrence of `pat`,
scanned left to right, is replaced by `rep`.  All patterns appearing in the
source are non-empty, so the empty pattern is left as the identity. -/
def pyReplace (s pat rep : String) : String :=
  if pat.data.isEmpty then s else ⟨replaceStep pat.data rep.data 0 s.data⟩

/-- Python `s.count(pat)` for a non-empty pattern (non-overlapping count). -/
def countStep (pat : List Char) : Nat → List Char → Nat
  | _, [] => 0
  | k + 1, _ :: rest => countStep pat k rest
  | 0, c :: rest =>
    if listLeads pat (c :: rest) then 1 + countStep pat (pat.length - 1) rest
    else countStep pat 0 rest

/-- Python `s.count(pat)` for a non-empty pattern string. -/
def strCount (s p : String) : Nat := countStep p.data 0 s.data

/-- Python `s.strip()` (whitespace removed from both ends). -/
def strTrim (s : String) : String :=
  ⟨((s.data.dropWhile Char.isWhitespace).reverse.dropWhile Char.isWhitespace).reverse⟩

/-- Python `s.rstrip(c)` for a single strip character. -/
def strRStrip (s : String) (c : Char) : String :=
  ⟨(s.data.reverse.dropWhile (· = c)).reverse⟩

/-- Python `s.lower()` (the source applies it to ASCII URLs and page text). -/
def strLower (s : String) : String := ⟨s.data.map Char.toLower⟩

/-- Python `s.split(sep)[0]` — characters before the first separator. -/
def strBefore (s : String) (sep : Char) : String := ⟨s.data.takeWhile (· ≠ sep)⟩

/-- Python `s.isdigit()` restricted to ASCII digits, which is all the data
the source feeds it. -/
def strIsDigits (s : String) : Bool := !s.data.isEmpty && s.data.all Char.isDigit

/-- Numeric value of an ASCII digit string (Python `float(s)` on digit
strings, which the aggregation code uses only on such strings). -/
def strToNat (s : String) : Nat := s.data.foldl (fun n c => n * 10 + (c.toNat - 48)) 0

/-- Python `s.upper()`. -/
def strUpper (s : String) : String := ⟨s.data.map Char.toUpper⟩

/-- Helper for `strSplitChar`. -/
def splitCharAux (sep : Char) : List Char → List (List Char)
  | [] => [[]]
  | c :: rest =>
    match splitCharAux sep rest with
    | [] => [[c]]
    | w :: ws => if c = sep then [] :: w :: ws else (c :: w) :: ws

/-- Python `s.split(sep)` for a one-character separator (keeps empty parts). -/
def strSplitChar (s : String) (sep : Char) : List String :=
  (splitCharAux sep s.data).map (fun w => ⟨w⟩)

/-- Helper for `strSplitWs`: accumulates the current word reversed. -/
def splitWsAux : List Char → List Char → List String
  | acc, [] => if acc.isEmpty then [] else [⟨acc.reverse⟩]
  | acc, c :: rest =>
    if c.isWhitespace then
      if acc.isEmpty then splitWsAux [] rest else ⟨acc.reverse⟩ :: splitWsAux [] rest
    else splitWsAux (c :: acc) rest

/-- Python `s.split()` (split on whitespace runs, no empty parts). -/
def strSplitWs (s : String) : List String := splitWsAux [] s.data

/-- Python `", ".join(xs)`. -/
def joinComma : List String → String
  | [] => ""
  | [x] => x
  | x :: rest => x ++ ", " ++ joinComma rest

/-- Python `dict.get` over an association list. -/
def assocFind (tbl : List (String × α)) (k : String) : Option α :=
  (tbl.find? (fun p => p.1 = k)).map (fun p => p.2)

/-- The character list of `"///"`. -/
def triSlash : List Char := ['/', '/', '/']

/-- The character list of `"//"`. -/
def dblSlash : List Char := ['/', '/']

/-- The character list of `"////"`. -/
def quadSlash : List Char := ['/', '/', '/', '/']

/-! ## Link Validator (`validate_url`, app.py lines 36-136)

The single `requests.get` call (and the BeautifulSoup parse of a 200
response) is modelled by a `NetOutcome` oracle indexed by URL. -/

/-- Outcome of the one HTTP GET inside `validate_url`:
the four exception branches of the source, or a completed response carrying
the status code, the elapsed milliseconds, and the result of parsing the
body (`Except.error msg` when BeautifulSoup raises; otherwise the optional
raw title text and the page text, to which the source applies `strip` /
`lower` itself). -/
inductive NetOutcome where
  | timeout : NetOutcome
  | connectionError : NetOutcome
  | requestError (msg : String) : NetOutcome
  | otherError (msg : String) : NetOutcome
  | response (status_code : Nat) (ms : Nat) (parse : Except String (Option String × String)) : NetOutcome

/-- The dictionary built by `validate_url`. -/
structure ValidationResult where
  url : String
  status : String
  status_code : Option Nat
  response_time : Option Nat
  error_message : Option String
  is_working : Bool
  contains_funding_keywords : Bool
  page_title : Option String
deriving Repr, DecidableEq

/-- Funding-related keywords checked against the page text (app.py 90-94). -/
def funding_keywords : List String :=
  ["grant", "funding", "subvention", "aide", "financement",
   "scholarship", "bourse", "subsidy", "support", "program",
   "programme", "application", "deadline", "eligibility"]

/-- Embedding of `validate_url(url, timeout)` (app.py 36-136) over a network
oracle `net`. -/
def validate_url (net : String → NetOutcome) (timeout : Nat) (url : String) : ValidationResult :=
  let base : ValidationResult :=
    { url := url, status := "Unknown", status_code := none, response_time := none,
      error_message := none, is_working := false, contains_funding_keywords := false,
      page_title := none }
  if url = "" || !(strStarts url "http://" || strStarts url "https://") then
    { base with status := "Invalid URL",
                error_message := some "URL is empty or does not start with http/https" }
  else
    match net url with
    | .timeout =>
      { base with status := "Timeout",
                  error_message := some ("Request timed out after " ++ toString timeout ++ " seconds") }
    | .connectionError =>
      { base with status := "Connection Error", error_message := some "Could not connect to server" }
    | .requestError msg =>
      { base with status := "Request Error", error_message := some msg }
    | .otherError msg =>
      { base with status := "Unknown Error", error_message := some msg }
    | .response code ms parse =>
      let r := { base with response_time := some ms, status_code := some code }
      if code = 200 then
        let r := { r with status := "Working", is_working := true }
        match parse with
        | .error parseMsg =>
          { r with error_message := some ("Content parsing failed: " ++ parseMsg) }
        | .ok (titleTag, pageText) =>
          let r := match titleTag with
            | some t => { r with page_title := some (strTrim t) }
            | none => r
          { r with contains_funding_keywords :=
              funding_keywords.any (fun kw => strHasSub (strLower pageText) kw) }
      else if code = 404 then
        { r with status := "404 Not Found", error_message := some "Page not found" }
      else if code = 403 then
        { r with status := "403 Forbidden", error_message := some "Access forbidden" }
      else if code = 500 then
        { r with status := "500 Server Error", error_message := some "Internal server error" }
      else
        { r with status := "HTTP " ++ toString code,
                 error_message := some ("HTTP status code: " ++ toString code) }

/-! ## URL Repair Engine (`attempt_url_fix`, app.py lines 138-335) -/

/-- One entry of the `fix_attempts` history. -/
structure FixAttempt where
  strategy : String
  url : String
  status : String
  working : Bool
  response_time : Option Nat := none
  page_title : Option String := none
deriving Repr, DecidableEq

/-- The dictionary returned by `attempt_url_fix`. -/
structure FixResult where
  original_url : String
  title : String
  source : String
  fix_attempts : List FixAttempt
  final_status : String
  working_url : Option String
  fix_strategy : Option String
  issues_found : List String
deriving Repr, DecidableEq

/-- Strategy 1 (app.py 158): add a missing protocol. -/
def fixStrategy1 (url : String) : String :=
  if !(strStarts url "http://" || strStarts url "https://") then "https://" ++ url else url

/-- Strategy 2 (app.py 161): fix common typos. -/
def fixStrategy2 (url : String) : String :=
  pyReplace (pyReplace (pyReplace url "htpp://" "http://") "htpps://" "https://") "www.www." "www."

/-- Strategy 3 (app.py 164): try HTTPS instead of HTTP. -/
def fixStrategy3 (url : String) : String :=
  if strStarts url "http://" then pyReplace url "http://" "https://" else url

/-- Strategy 4 (app.py 167): try HTTP instead of HTTPS. -/
def fixStrategy4 (url : String) : String :=
  if strStarts url "https://" then pyReplace url "https://" "http://" else url

/-- Strategy 5 (app.py 170): remove duplicate slashes. -/
def fixStrategy5 (url : String) : String :=
  pyReplace (pyReplace url "///" "//") "////" "//"

/-- Strategy 6 (app.py 173): remove trailing parameters. -/
def fixStrategy6 (url : String) : String :=
  if strHasChar url '?' then strBefore url '?' else url

/-- Strategy 7 (app.py 176): try without www. -/
def fixStrategy7 (url : String) : String :=
  if strHasSub url "www." then pyReplace url "www." "" else url

/-- Strategy 8 (app.py 179): try with www. -/
def fixStrategy8 (url : String) : String :=
  if !strHasSub url "://www." && strHasSub url "://" then pyReplace url "://" "://www." else url

/-- Strategy 9 (app.py 182): remove the trailing slash. -/
def fixStrategy9 (url : String) : String :=
  if strEnds url "/" then strRStrip url '/' else url

/-- Strategy 10 (app.py 185): add a trailing slash. -/
def fixStrategy10 (url : String) : String :=
  if !strEnds url "/" && !strHasChar url '?' && !strHasChar url '#' then url ++ "/" else url

/-- The `zip(fix_strategies, strategy_names)` pairing of app.py 156-199. -/
def fix_strategies : List (String × (String → String)) :=
  [("Add missing protocol", fixStrategy1),
   ("Fix common typos", fixStrategy2),
   ("Try HTTPS instead of HTTP", fixStrategy3),
   ("Try HTTP instead of HTTPS", fixStrategy4),
   ("Remove duplicate slashes", fixStrategy5),
   ("Remove URL parameters", fixStrategy6),
   ("Try without www", fixStrategy7),
   ("Try with www", fixStrategy8),
   ("Remove trailing slash", fixStrategy9),
   ("Add trailing slash", fixStrategy10)]

/-- Scheme characters allowed by `urllib.parse` after the leading letter. -/
def schemeChar (c : Char) : Bool := c.isAlphanum || c = '+' || c = '-' || c = '.'

/-- Modelled after `urllib.parse.urlparse(url).netloc` (app.py 264-266): the
substring after a leading `scheme:` plus `//` (or a bare leading `//`) up to
the next `/`, `?` or `#`; empty when the URL has no `//` authority part. -/
def netlocOf (url : String) : String :=
  let cs := url.data
  let scheme := cs.takeWhile schemeChar
  let rest :=
    match cs.drop scheme.length with
    | ':' :: r => if scheme.head?.elim false Char.isAlpha then r else cs
    | _ => cs
  match rest with
  | '/' :: '/' :: r => ⟨r.takeWhile (fun c => c ≠ '/' && c ≠ '?' && c ≠ '#')⟩
  | _ => ""

/-- Domain-specific fix candidates (app.py 258-291). -/
def domainCandidates (original_url : String) : List String :=
  let domain := strLower (netlocOf original_url)
  if strHasSub domain "ec.europa.eu" then
    (if strHasSub original_url "/calls-for-proposals" then
      ["https://ec.europa.eu/info/funding-tenders/opportunities/portal/screen/home"] else [])
    ++ (if strHasSub original_url "/regional_policy" then
      ["https://ec.europa.eu/regional_policy/funding_en"] else [])
  else if strHasSub domain "culture.gouv.fr" then
    ["https://www.culture.gouv.fr/Aides-demarches",
     "https://www.culture.gouv.fr/Thematiques/Soutien-a-la-creation-artistique"]
  else if strHasSub domain "artscouncil" then
    (if strHasSub domain ".org.uk" then ["https://www.artscouncil.org.uk/funding"] else [])
  else if strHasSub domain "kulturfond" || strHasSub domain "kultuur" then
    ["https://www.nordiskkulturfond.org/en/funding"]
  else []

/-- Shared shape of the two candidate loops of `attempt_url_fix` (app.py
216-256 and 294-313): walk the candidate `(strategy name, url)` pairs in
order; a candidate equal to `skipUrl` or already present in the attempt
history is passed over; otherwise it is validated (5 s timeout) and recorded,
and the loop stops at the first candidate whose validation works.  The
strategy loop passes the original URL as `skipUrl` (its `fixed_url ==
original_url` check); the domain loop passes `none`.  The Python
strategy-loop `except` branch is unreachable here because every embedded
strategy is a total function. -/
def tryCandidates (net : String → NetOutcome) (skipUrl : Option String) :
    List (String × String) → FixResult → FixResult
  | [], acc => acc
  | (name, u) :: rest, acc =>
    if skipUrl = some u then tryCandidates net skipUrl rest acc
    else if acc.fix_attempts.any (fun a => a.url = u) then tryCandidates net skipUrl rest acc
    else
      let v := validate_url net 5 u
      let att : FixAttempt :=
        { strategy := name, url := u, status := v.status, working := v.is_working,
          response_time := v.response_time, page_title := v.page_title }
      let acc2 := { acc with fix_attempts := acc.fix_attempts ++ [att] }
      if v.is_working then
        { acc2 with final_status := "Fixed", working_url := some u, fix_strategy := some name }
      else
        tryCandidates net skipUrl rest acc2

/-- Issue-diagnosis pass (app.py 315-333), run when the final status is still
`Not Fixed`. -/
def analyzeIssues (original_url : String) (r : FixResult) : FixResult :=
  if r.final_status = "Not Fixed" then
    let issues :=
      (if strCount original_url "//" > 1 then ["Multiple slashes in URL"] else [])
      ++ (if !(strStarts original_url "http://" || strStarts original_url "https://") then
            ["Missing protocol"] else [])
      ++ (if strHasSub original_url "www.www." then ["Duplicate www prefix"] else [])
      ++ (if r.fix_attempts.any (fun a => a.status = "404 Not Found") then
            ["Page no longer exists (404)"] else [])
      ++ (if r.fix_attempts.any (fun a => a.status = "Connection Error") then
            ["Server unreachable"] else [])
      ++ (if r.fix_attempts.any (fun a => a.status = "Timeout") then
            ["Server too slow to respond"] else [])
      ++ (if r.fix_attempts.any (fun a => a.status = "403 Forbidden") then
            ["Access forbidden by server"] else [])
      ++ (if r.fix_attempts.length > 5 then ["Multiple fix strategies failed"] else [])
    { r with issues_found := r.issues_found ++ issues }
  else r

/-- Embedding of `attempt_url_fix(original_url, title, source)` (app.py
138-335) over the network oracle `net`. -/
def attempt_url_fix (net : String → NetOutcome) (original_url title source : String) : FixResult :=
  let base : FixResult :=
    { original_url := original_url, title := title, source := source, fix_attempts := [],
      final_status := "Not Fixed", working_url := none, fix_strategy := none, issues_found := [] }
  if original_url = "" then
    { base with issues_found := ["URL is empty"] }
  else
    let origV := validate_url net 5 original_url
    let acc0 := { base with fix_attempts :=
      [{ strategy := "Original URL", url := original_url, status := origV.status,
         working := origV.is_working }] }
    if origV.is_working then
      { acc0 with final_status := "Already Working", working_url := some original_url }
    else
      let r1 := tryCandidates net (some original_url)
        (fix_strategies.map (fun p => (p.1, p.2 original_url))) acc0
      let r2 :=
        if r1.final_status = "Not Fixed" then
          tryCandidates net none
            ((domainCandidates original_url).map (fun u => ("Domain-specific fix", u))) r1
        else r1
      analyzeIssues original_url r2

/-- Invariant of a repair run that has not (yet) found a working candidate:
status still `Not Fixed`, no working URL or winning strategy, and every
validated attempt reported not working. -/
def NotFixedInv (r : FixResult) : Prop :=
  r.final_status = "Not Fixed" ∧ r.working_url = none ∧ r.fix_strategy = none ∧
  ∀ a ∈ r.fix_attempts, a.working = false

/-- Invariant of a repair run that ended `Fixed`: the last recorded attempt
is the working candidate, it supplies `working_url` and `fix_strategy`, and
every earlier attempt reported not working. -/
def FixedInv (r : FixResult) : Prop :=
  r.final_status = "Fixed" ∧
  (∃ a, r.fix_attempts.getLast? = some a ∧ a.working = true ∧
    r.working_url = some a.url ∧ r.fix_strategy = some a.strategy) ∧
  ∀ b ∈ r.fix_attempts.dropLast, b.working = false

/-- Invariant of a repair run that ended `Already Working`: only the original
URL was validated. -/
def AlreadyWorkingInv (net : String → NetOutcome) (orig : String) (r : FixResult) : Prop :=
  r.final_status = "Already Working" ∧ r.working_url = some orig ∧ r.fix_strategy = none ∧
  (validate_url net 5 orig).is_working = true ∧
  r.fix_attempts =
    [{ strategy := "Original URL", url := orig, status := (validate_url net 5 orig).status,
       working := true }]

/-! ## Opportunity records and the urgency sort (`api.py`)

A funding `Opportunity` record is a Python dict whose key set varies by
source; the structure below carries exactly the fields read by the pipeline
under specification (aggregation, region filters, urgency sort, URL
validation, funding aggregation).  Absent dict keys are `none`. -/

/-- One funding opportunity record. -/
structure Opportunity where
  title : Option String := none
  description : Option String := none
  category : Option String := none
  targeted_audiences : Option String := none
  perimeter : Option String := none
  location : Option String := none
  url : Option String := none
  website : Option String := none
  source : Option String := none
  amount_min : Option String := none
  amount_max : Option String := none
  days_until_deadline : Option Int := none
  link_active : Option Bool := none
  link_status : Option String := none
  filtered_region : Option String := none
deriving Repr, DecidableEq

instance : Inhabited Opportunity := ⟨{}⟩

/-- The field access `item.get('days_until_deadline', 999)` used by the sort
and by the analysis code. -/
def daysOf (item : Opportunity) : Int := item.days_until_deadline.getD 999

/-- Sort key of `SubventionSearcher._sort_by_deadline` (api.py 1053-1061):
urgent (bucket 1, under 30 days), medium (bucket 2, under 90 days), distant
(bucket 3), with the day count itself as tie-break. -/
def get_deadline_priority (item : Opportunity) : Int × Int :=
  let d := daysOf item
  if d < 30 then (1, d) else if d < 90 then (2, d) else (3, d)

/-- Python tuple comparison `<=` on the sort keys. -/
def priorityLe (p q : Int × Int) : Bool :=
  p.1 < q.1 || (p.1 = q.1 && p.2 ≤ q.2)

/-- Embedding of `SubventionSearcher._sort_by_deadline` (api.py 1051-1063):
Python `sorted` is a stable sort by the key tuple, modelled by the stable
`List.mergeSort` under the key's lexicographic order. -/
def sort_by_deadline (results : List Opportunity) : List Opportunity :=
  results.mergeSort (fun a b => priorityLe (get_deadline_priority a) (get_deadline_priority b))

/-- The three-level urgency bucket as the claim states it. -/
def urgencyBucket (d : Int) : Int :=
  if d < 30 then 1 else if d < 90 then 2 else 3

/-! ## Source Adapters and the Aggregator (`api.py`) -/

/-- `EUROPEAN_COUNTRIES` (api.py 1282-1325) as (code, name) pairs; the
region annotation of each entry is never read by the pipeline under
specification. -/
def EUROPEAN_COUNTRIES : List (String × String) :=
  [("AT", "Austria"), ("BE", "Belgium"), ("BG", "Bulgaria"), ("HR", "Croatia"),
   ("CY", "Cyprus"), ("CZ", "Czech Republic"), ("DK", "Denmark"), ("EE", "Estonia"),
   ("FI", "Finland"), ("FR", "France"), ("DE", "Germany"), ("GR", "Greece"),
   ("HU", "Hungary"), ("IE", "Ireland"), ("IT", "Italy"), ("LV", "Latvia"),
   ("LT", "Lithuania"), ("LU", "Luxembourg"), ("MT", "Malta"), ("NL", "Netherlands"),
   ("PL", "Poland"), ("PT", "Portugal"), ("RO", "Romania"), ("SK", "Slovakia"),
   ("SI", "Slovenia"), ("ES", "Spain"), ("SE", "Sweden"), ("NO", "Norway"),
   ("IS", "Iceland"), ("CH", "Switzerland"), ("UK", "United Kingdom"), ("TR", "Turkey"),
   ("AL", "Albania"), ("BA", "Bosnia and Herzegovina"), ("ME", "Montenegro"),
   ("MK", "North Macedonia"), ("RS", "Serbia"), ("UA", "Ukraine"), ("MD", "Moldova"),
   ("GE", "Georgia"), ("AM", "Armenia")]

/-- `EUROPEAN_REGIONS` (api.py 1328-1383) as (code, (name, countries)). -/
def EUROPEAN_REGIONS : List (String × (String × List String)) :=
  [("", ("All European Countries", EUROPEAN_COUNTRIES.map (fun p => p.1))),
   ("WEST", ("Western Europe", ["AT", "BE", "FR", "DE", "IE", "LU", "NL", "CH", "UK"])),
   ("NORTH", ("Northern Europe", ["DK", "EE", "FI", "IS", "LV", "LT", "NO", "SE"])),
   ("SOUTH", ("Southern Europe",
     ["HR", "CY", "GR", "IT", "MT", "PT", "ES", "AL", "BA", "ME", "MK", "RS", "TR"])),
   ("EAST", ("Eastern Europe", ["BG", "CZ", "HU", "PL", "RO", "SK", "SI", "UA", "MD", "GE", "AM"])),
   ("CENTRAL", ("Central Europe", ["AT", "CZ", "DE", "HU", "PL", "SK", "SI", "CH"])),
   ("BRITISH", ("British Isles", ["UK", "IE"])),
   ("DE", ("Germany", ["DE"])), ("IT", ("Italy", ["IT"])), ("ES", ("Spain", ["ES"])),
   ("NL", ("Netherlands", ["NL"])), ("BE", ("Belgium", ["BE"])), ("AT", ("Austria", ["AT"])),
   ("CH", ("Switzerland", ["CH"])), ("DK", ("Denmark", ["DK"])), ("SE", ("Sweden", ["SE"])),
   ("NO", ("Norway", ["NO"])), ("FI", ("Finland", ["FI"])), ("PL", ("Poland", ["PL"])),
   ("CZ", ("Czech Republic", ["CZ"])), ("HU", ("Hungary", ["HU"])), ("GR", ("Greece", ["GR"])),
   ("PT", ("Portugal", ["PT"])), ("IE", ("Ireland", ["IE"])), ("RO", ("Romania", ["RO"])),
   ("BG", ("Bulgaria", ["BG"])), ("HR", ("Croatia", ["HR"])), ("SK", ("Slovakia", ["SK"])),
   ("SI", ("Slovenia", ["SI"])), ("EE", ("Estonia", ["EE"])), ("LV", ("Latvia", ["LV"])),
   ("LT", ("Lithuania", ["LT"])), ("LU", ("Luxembourg", ["LU"])), ("MT", ("Malta", ["MT"])),
   ("CY", ("Cyprus", ["CY"]))]

/-- `COLOMBIAN_CITIES` (api.py 1386-1417) as (code, name) pairs; department
and region annotations are never read by the pipeline under specification. -/
def COLOMBIAN_CITIES : List (String × String) :=
  [("BOG", "Bogotá"), ("MDE", "Medellín"), ("CLI", "Cali"), ("BAQ", "Barranquilla"),
   ("CTG", "Cartagena"), ("CUC", "Cúcuta"), ("SMR", "Santa Marta"), ("IBG", "Ibagué"),
   ("BUC", "Bucaramanga"), ("PEI", "Pereira"), ("MAN", "Manizales"), ("ARM", "Armenia"),
   ("VLD", "Valledupar"), ("VIL", "Villavicencio"), ("PAS", "Pasto"), ("MON", "Montería"),
   ("NEV", "Neiva"), ("SIN", "Sincelejo"), ("RIO", "Riohacha"), ("QUE", "Quibdó"),
   ("FLO", "Florencia"), ("YOP", "Yopal"), ("ARA", "Arauca"), ("LET", "Leticia"),
   ("MIT", "Mitú"), ("PUE", "Puerto Carreño"), ("INI", "Inírida"),
   ("SJG", "San José del Guaviare"), ("TUN", "Tunja"), ("POA", "Popayán")]

/-- `COLOMBIAN_REGIONS` (api.py 1420-1462) as (code, (name, cities)). -/
def COLOMBIAN_REGIONS : List (String × (String × List String)) :=
  [("", ("All Colombian Cities", COLOMBIAN_CITIES.map (fun p => p.1))),
   ("ANDINA", ("Región Andina",
     ["BOG", "MDE", "CUC", "IBG", "BUC", "PEI", "MAN", "ARM", "NEV", "TUN", "POA"])),
   ("CARIBE", ("Región Caribe", ["BAQ", "CTG", "SMR", "VLD", "MON", "SIN", "RIO"])),
   ("PACIFICA", ("Región Pacífica", ["CLI", "PAS", "QUE"])),
   ("ORINOQUIA", ("Región Orinoquía", ["VIL", "YOP", "ARA", "PUE"])),
   ("AMAZONICA", ("Región Amazónica", ["FLO", "LET", "MIT", "INI", "SJG"])),
   ("BOG", ("Bogotá", ["BOG"])), ("MDE", ("Medellín", ["MDE"])), ("CLI", ("Cali", ["CLI"])),
   ("BAQ", ("Barranquilla", ["BAQ"])), ("CTG", ("Cartagena", ["CTG"])),
   ("CUC", ("Cúcuta", ["CUC"])), ("SMR", ("Santa Marta", ["SMR"])),
   ("IBG", ("Ibagué", ["IBG"])), ("BUC", ("Bucaramanga", ["BUC"])),
   ("PEI", ("Pereira", ["PEI"])), ("MAN", ("Manizales", ["MAN"])),
   ("ARM", ("Armenia", ["ARM"])), ("VLD", ("Valledupar", ["VLD"])),
   ("VIL", ("Villavicencio", ["VIL"])), ("PAS", ("Pasto", ["PAS"])),
   ("MON", ("Montería", ["MON"])), ("NEV", ("Neiva", ["NEV"])),
   ("TUN", ("Tunja", ["TUN"])), ("POA", ("Popayán", ["POA"]))]

/-- A raw aid dict as returned by the Aides-Territoires API (the fields read
by `search_subventions`, api.py 675-709).  The `description` carries the
text handed to the HTML cleaner; list-valued fields carry the already
projected `name` entries. -/
structure FrenchRawAid where
  name : Option String := none
  description : Option String := none
  url : Option String := none
  date_created : Option String := none
  date_updated : Option String := none
  submission_deadline : Option String := none
  aid_types : List String := []
  targeted_audiences : List String := []
  financers : List String := []
  perimeter : Option String := none
  subvention_rate_lower_bound : Option String := none
  subvention_rate_upper_bound : Option String := none
  contact_email : Option String := none
  contact_phone : Option String := none
deriving Repr, DecidableEq

/-- Outcome of the Aides-Territoires request for one (keywords, region,
limit) query, covering the source's branches (api.py 659-721): HTTP 401,
HTTP 429, a `requests` exception (including `raise_for_status`), any other
exception, or a successful JSON body with its result list. -/
inductive FrenchApiOutcome where
  | authRequired : FrenchApiOutcome
  | rateLimited : FrenchApiOutcome
  | requestFailed : FrenchApiOutcome
  | unexpectedError : FrenchApiOutcome
  | ok (results : List FrenchRawAid) : FrenchApiOutcome

/-- An OpenAIRE project after `_safe_extract` (api.py 372-373): the extracted
title and description, `""` when no usable key was found. -/
structure OpenAireProject where
  titleExtract : String := ""
  descExtract : String := ""
deriving Repr, DecidableEq

/-- The external world of one aggregated search: the two live HTTP APIs, the
link validator of the European pipeline, and the clock/format/HTML-cleaning
library calls (`datetime`, `strftime`, `strptime`, BeautifulSoup, `re`). -/
structure SearchEnv where
  frenchApi : String → String → Nat → FrenchApiOutcome
  openaire : String → Nat → Option (List OpenAireProject)
  linkCheck : String → Bool × String
  daysUntil : String → Int
  todayStr : String
  dateAhead : Nat → String
  formatDate : String → String
  cleanHtml : String → String
  cleanText : String → String

/-- Sample French data (`_get_sample_french_data`, api.py 813-897), used when
the live API requires authentication or is unreachable; filtered by the
comma-separated keywords against title+description, never truncated. -/
def sample_french_data (env : SearchEnv) (keywords region : String) : List Opportunity :=
  let sample : List Opportunity :=
    [{ title := some "Aide à l\x27innovation numérique",
       description := some ("Subvention destinée aux entreprises développant des solutions numériques innovantes. Montant jusqu\x27à 50 000€ pour financer la R&D et le développement de prototypes."),
       url := some "https://aides-territoires.beta.gouv.fr",
       targeted_audiences := some "TPE, PME, Startups",
       perimeter := some "Île-de-France",
       amount_min := some "10000", amount_max := some "50000",
       days_until_deadline := some (env.daysUntil "31/12/2025"),
       source := some "Aides-Territoires (Sample)", category := some "French Subvention" },
     { title := some "Fonds pour la transition écologique",
       description := some ("Accompagnement financier pour les projets de transition énergétique et environnementale. Soutien aux énergies renouvelables et à l\x27efficacité énergétique."),
       url := some "https://aides-territoires.beta.gouv.fr",
       targeted_audiences := some "Entreprises, Collectivités",
       perimeter := some "France entière",
       amount_min := some "25000", amount_max := some "100000",
       days_until_deadline := some (env.daysUntil "30/11/2025"),
       source := some "Aides-Territoires (Sample)", category := some "French Subvention" },
     { title := some "Bourse French Tech",
       description := some ("Programme de financement pour les startups technologiques en phase d\x27amorçage. Accompagnement personnalisé et accès au réseau French Tech."),
       url := some "https://www.lafrenchtech.com",
       targeted_audiences := some "Startups tech",
       perimeter := some "Métropoles French Tech",
       amount_min := some "15000", amount_max := some "30000",
       days_until_deadline := some (env.daysUntil "15/10/2025"),
       source := some "Aides-Territoires (Sample)", category := some "French Subvention" }]
  if keywords ≠ "" then
    let keyword_list := (strSplitChar keywords ',').map (fun k => strLower (strTrim k))
    sample.filter (fun item =>
      keyword_list.any (fun kw =>
        strHasSub (strLower ((item.title.getD "") ++ " " ++ (item.description.getD ""))) kw))
  else sample

/-- Normalization of one raw aid (`search_subventions` loop, api.py
675-710); HTML cleaning and date handling are the library calls carried by
`env`. -/
def process_aid (env : SearchEnv) (aid : FrenchRawAid) : Opportunity :=
  let deadline_date := env.formatDate (aid.submission_deadline.getD "")
  { title := some (aid.name.getD "N/A"),
    description := some (env.cleanHtml (aid.description.getD "")),
    url := some (aid.url.getD ""),
    targeted_audiences := some (joinComma aid.targeted_audiences),
    perimeter := some (aid.perimeter.getD ""),
    amount_min := some (aid.subvention_rate_lower_bound.getD ""),
    amount_max := some (aid.subvention_rate_upper_bound.getD ""),
    days_until_deadline := some (env.daysUntil deadline_date),
    source := some "Aides-Territoires (France)", category := some "French Subvention" }

/-- Embedding of `AidesTerritoriesAPI.search_subventions` (api.py 627-721).
The `limit` is sent to the server as a request parameter; the client caps
neither the processed live results nor the sample fallback. -/
def search_subventions (env : SearchEnv) (keywords region : String) (limit : Nat) :
    List Opportunity :=
  match env.frenchApi keywords region limit with
  | .authRequired => sample_french_data env keywords region
  | .rateLimited => []
  | .requestFailed => sample_french_data env keywords region
  | .unexpectedError => []
  | .ok raws => raws.map (process_aid env)

/-- Funding amounts cycled through by the OpenAIRE mapping (api.py 379). -/
def fundingAmounts : List Nat := [500000, 750000, 1000000, 1500000, 2000000, 3000000]

/-- The constant portal URL attached to every OpenAIRE record (api.py 393). -/
def openairePortalUrl : String :=
  "https://ec.europa.eu/info/funding-tenders/opportunities/portal/screen/opportunities/topic-search;callCode=null;freeTextSearchKeyword=;matchWholeText=false;typeCodes=1,0;statusCodes=31094501,31094502,31094503;programmePeriod=2021%20-%202027;programCcm2Id=43108390;programDivisionCode=null;focusAreaCode=null;destination=null;mission=null;geographicalZonesCode=null;programmeDivisionProspects=null;startDateLte=null;startDateGte=null;crossCuttingPriorityCode=null;cpvCode=null;performanceOfDelivery=null;sortQuery=sortStatus;orderBy=asc;onlyTenders=false;topicListKey=topicSearchTablePageState"

/-- Mapping of the i-th OpenAIRE project to a record (api.py 370-413). -/
def openaire_record (env : SearchEnv) (i : Nat) (p : OpenAireProject) : Opportunity :=
  let title := if p.titleExtract = "" then "EU Research Project #" ++ toString (i + 1)
    else p.titleExtract
  let description := if p.descExtract = "" then "European research and innovation project"
    else p.descExtract
  let endYear := 2023 + i % 3 + 2 + i % 3
  let amount := fundingAmounts.getD (i % fundingAmounts.length) 0
  { title := some title,
    description := some (env.cleanText description),
    url := some openairePortalUrl,
    targeted_audiences := some "Research institutions, Universities, SMEs",
    perimeter := some "European Union + Associated Countries",
    amount_min := some (toString (amount / 2)),
    amount_max := some (toString amount),
    days_until_deadline := some (env.daysUntil ("31/12/" ++ toString endYear)),
    source := some "OpenAIRE (Live API)", category := some "European Grant" }

/-- Embedding of `_search_openaire_projects` (api.py 345-422): a failed or
non-200 call yields no results; otherwise the first `limit` projects are
mapped. -/
def search_openaire_projects (env : SearchEnv) (keywords : String) (limit : Nat) :
    List Opportunity :=
  match env.openaire keywords limit with
  | none => []
  | some projects => (projects.take limit).enum.map (fun ip => openaire_record env ip.1 ip.2)

/-- Horizon Europe clusters (api.py 429-455): name, topics, budget range. -/
def horizonClusters : List (String × List String × Nat × Nat) :=
  [("Digital, Industry and Space",
    ["Artificial Intelligence", "Quantum Technologies", "Digital Manufacturing",
     "Space Technologies"], 1000000, 5000000),
   ("Climate, Energy and Mobility",
    ["Green Deal", "Clean Energy", "Sustainable Transport", "Climate Adaptation"],
    750000, 3000000),
   ("Food, Bioeconomy, Natural Resources",
    ["Sustainable Agriculture", "Circular Economy", "Marine Resources", "Biodiversity"],
    500000, 2500000),
   ("Health",
    ["Digital Health", "Pandemic Preparedness", "Cancer Research", "Mental Health"],
    1500000, 10000000),
   ("Culture, Creativity and Inclusive Society",
    ["Social Innovation", "Cultural Heritage", "Education Technology", "Democracy"],
    300000, 1500000)]

/-- Python `f"{n:02d}"`. -/
def twoDigit (n : Nat) : String := if n < 10 then "0" ++ toString n else toString n

/-- The i-th generated Horizon Europe call (api.py 457-492).  The day count
`(deadline_date - now).days` of a deadline `now + 30 * months_ahead` days is
exactly `30 * months_ahead`, so it is clock-independent. -/
def horizon_call (i : Nat) : Opportunity :=
  let cluster := horizonClusters.getD (i % horizonClusters.length) ("", [], 0, 0)
  let topic := cluster.2.1.getD (i % cluster.2.1.length) ""
  let budget := cluster.2.2.1 + (cluster.2.2.2 - cluster.2.2.1) * (i % 3) / 2
  let monthsAhead := 3 + (i * 2) % 15
  let callId := "HORIZON-" ++ strUpper ⟨cluster.1.data.take 3⟩ ++ "-"
    ++ toString (2025 + i / 5) ++ "-" ++ twoDigit (i % 10 + 1)
  { title := some (topic ++ " Innovation Call - " ++ callId),
    description := some ("Horizon Europe funding call for " ++ strLower topic
      ++ " research and innovation projects under the " ++ cluster.1
      ++ " cluster. Supporting breakthrough solutions and European competitiveness."),
    url := some ("https://ec.europa.eu/info/funding-tenders/opportunities/portal/screen/opportunities/topic-details/" ++ callId),
    targeted_audiences := some "Research organizations, SMEs, Large enterprises, Public bodies",
    perimeter := some "EU Member States + Associated Countries",
    amount_min := some (toString (budget / 3)),
    amount_max := some (toString budget),
    days_until_deadline := some (30 * monthsAhead),
    source := some "Horizon Europe (Live Program)", category := some "European Grant" }

/-- Embedding of `_generate_horizon_calls` (api.py 424-495). -/
def generate_horizon_calls (limit : Nat) : List Opportunity :=
  (List.range (min limit 10)).map horizon_call

/-- Curated programs (api.py 500-546): program, description, url, budget,
deadline months. -/
def curatedPrograms : List (String × String × String × String × Nat) :=
  [("EIC Accelerator",
    "European Innovation Council funding for breakthrough innovations with commercial potential",
    "https://eic.ec.europa.eu/eic-funding-opportunities/eic-accelerator_en",
    "€2,500,000", 4),
   ("EUREKA Eurostars",
    "Cross-border R&D projects by SMEs in partnership with research organizations",
    "https://www.eurostars-eureka.eu/", "€500,000", 6),
   ("LIFE Environment",
    "EU funding for environment and climate action projects",
    "https://cinea.ec.europa.eu/programmes/life_en", "€1,200,000", 8),
   ("Digital Europe Programme",
    "Funding for digital transformation and cybersecurity projects",
    "https://digital-strategy.ec.europa.eu/en/activities/digital-programme",
    "€800,000", 5),
   ("Connecting Europe Facility",
    "Infrastructure funding for transport, energy, and digital connectivity",
    "https://cinea.ec.europa.eu/programmes/connecting-europe-facility_en",
    "€5,000,000", 10)]

/-- One curated opportunity record (api.py 548-575). -/
def curated_record (p : String × String × String × String × Nat) : Opportunity :=
  let budgetStr := pyReplace (pyReplace p.2.2.2.1 "€" "") "," ""
  { title := some (p.1 ++ " - Call for Proposals 2025"),
    description := some (p.2.1
      ++ ". Open call for innovative projects supporting European strategic objectives."),
    url := some p.2.2.1,
    targeted_audiences := some "SMEs, Research organizations, Public bodies, NGOs",
    perimeter := some "European Union",
    amount_min := some (toString (strToNat budgetStr / 4)),
    amount_max := some budgetStr,
    days_until_deadline := some (30 * (p.2.2.2.2 : Int)),
    source := some "EU Programme (Live)", category := some "European Grant" }

/-- Embedding of `_get_curated_real_opportunities` (api.py 497-578). -/
def get_curated_real_opportunities (limit : Nat) : List Opportunity :=
  (curatedPrograms.take limit).map curated_record

/-- Embedding of `_get_extended_country_funding` (api.py 114-343): the five
original plus four new static country records, truncated at `limit`. -/
def extended_country_funding (limit : Nat) : List Opportunity :=
  let records : List Opportunity :=
    [{ title := some "Dutch Innovation Credit (MKB Innovatiestimulering)",
       description := some "Dutch government funding for SME innovation projects. Supports R&D, technical feasibility studies, and innovation development with grants up to €450,000.",
       url := some "https://english.rvo.nl/subsidies-financing/innovation-credit",
       targeted_audiences := some "Small and Medium Enterprises (SMEs)",
       perimeter := some "Netherlands",
       amount_min := some "10000", amount_max := some "450000",
       days_until_deadline := some 365,
       source := some "Netherlands RVO (Alternative URL)", category := some "National Grant" },
     { title := some "Polish National Centre for Research and Development (NCRD)",
       description := some "NCRD funding for research and development projects in Poland. Supports innovation, applied research, and technology transfer with funding up to €1.1M.",
       url := some "https://www.ncbr.gov.pl/en/",
       targeted_audiences := some "Research institutions, Companies, SMEs",
       perimeter := some "Poland",
       amount_min := some "50000", amount_max := some "1100000",
       days_until_deadline := some 180,
       source := some "Poland NCRD (Validated)", category := some "National Grant" },
     { title := some "Polish Digital Poland Programme",
       description := some "Digital transformation funding for Polish enterprises. Supports digitalization, e-services, and digital innovation projects up to €650K from EU funds.",
       url := some "https://www.gov.pl/web/cyfryzacja/program-operacyjny-polska-cyfrowa",
       targeted_audiences := some "Enterprises, Public institutions",
       perimeter := some "Poland",
       amount_min := some "25000", amount_max := some "650000",
       days_until_deadline := some 270,
       source := some "Poland Digital Programme (Alternative URL)",
       category := some "EU Regional Grant" },
     { title := some "German ZIM Innovation Programme",
       description := some "Central Innovation Programme for SMEs (ZIM) supports market-oriented R&D projects. Funding up to €550,000 for collaborative innovation projects.",
       url := some "https://www.bmwk.de/Redaktion/EN/Artikel/Technology/central-innovation-programme-for-smes.html",
       targeted_audiences := some "Small and Medium Enterprises",
       perimeter := some "Germany",
       amount_min := some "50000", amount_max := some "550000",
       days_until_deadline := some 365,
       source := some "Germany ZIM (Alternative URL)", category := some "National Grant" },
     { title := some "Italian Ministry of Economic Development (MISE)",
       description := some "Italian government funding for business innovation, research, and development. Various schemes available for SMEs and startups across multiple sectors.",
       url := some "https://www.mise.gov.it/index.php/it/incentivi",
       targeted_audiences := some "SMEs, Startups, Large enterprises",
       perimeter := some "Italy",
       amount_min := some "20000", amount_max := some "300000",
       days_until_deadline := some 120,
       source := some "Italy MISE (Validated)", category := some "National Grant" },
     { title := some "French Innovation Agency (BPI France)",
       description := some "French government funding for innovation and development projects. Supports startups, SMEs and growth companies with up to €2M funding.",
       url := some "https://www.bpifrance.fr/nos-solutions/financement",
       targeted_audiences := some "Startups, SMEs, Growth companies",
       perimeter := some "France",
       amount_min := some "50000", amount_max := some "2000000",
       days_until_deadline := some 365,
       source := some "France BPI (Extended)", category := some "National Grant" },
     { title := some "Austrian Research Promotion Agency (FFG)",
       description := some "Austrian national funding agency for applied research and innovation. Supports R&D projects and technology transfer up to €1.5M.",
       url := some "https://www.ffg.at/en",
       targeted_audiences := some "Research institutions, Companies",
       perimeter := some "Austria",
       amount_min := some "75000", amount_max := some "1500000",
       days_until_deadline := some 200,
       source := some "Austria FFG (Extended)", category := some "National Grant" },
     { title := some "Enterprise Ireland Innovation Funding",
       description := some "Irish government agency supporting high-potential startups and innovation projects with international ambition. Up to €1.3M available.",
       url := some "https://www.enterprise-ireland.com/en/funding-supports/",
       targeted_audiences := some "High-potential startups, SMEs",
       perimeter := some "Ireland",
       amount_min := some "25000", amount_max := some "1300000",
       days_until_deadline := some 300,
       source := some "Ireland Enterprise (Extended)", category := some "National Grant" },
     { title := some "Belgian VLAIO Innovation Support (Flanders)",
       description := some "Flemish innovation agency supporting research, development and innovation projects in Flanders region. Up to €1.2M available.",
       url := some "https://www.vlaio.be/nl/subsidies-financiering",
       targeted_audiences := some "Companies, Research institutions",
       perimeter := some "Belgium (Flanders)",
       amount_min := some "30000", amount_max := some "1200000",
       days_until_deadline := some 250,
       source := some "Belgium VLAIO (Extended)", category := some "Regional Grant" }]
  records.take limit

/-- Link annotation of the dynamic European pipeline (api.py 101-109). -/
def link_annotate (env : SearchEnv) (r : Opportunity) : Opportunity :=
  match r.url with
  | some u =>
    if u ≠ "" then
      { r with link_status := some (env.linkCheck u).2, link_active := some (env.linkCheck u).1 }
    else { r with link_status := some "❌ No link provided", link_active := some false }
  | none => { r with link_status := some "❌ No link provided", link_active := some false }

/-- Embedding of `DynamicEuropeanAPI.search_dynamic_european_data` (api.py
81-112): each sub-source gets a quarter of the limit, links are annotated,
and the concatenation is truncated at `limit`. -/
def search_dynamic_european_data (env : SearchEnv) (keywords : String) (limit : Nat) :
    List Opportunity :=
  let all :=
    search_openaire_projects env keywords (limit / 4)
    ++ generate_horizon_calls (limit / 4)
    ++ get_curated_real_opportunities (limit / 4)
    ++ extended_country_funding (limit / 4)
  (all.map (link_annotate env)).take limit

/-- Embedding of `TEDEuropaAPI._filter_by_region` (api.py 943-979). -/
def filter_by_region (results : List Opportunity) (region : String) : List Opportunity :=
  if region = "" ∨ results = [] then results
  else
    let info := assocFind EUROPEAN_REGIONS (strUpper region)
    let region_name := (info.map (fun p => p.1)).getD region
    let country_codes := (info.map (fun p => p.2)).getD [strUpper region]
    results.filterMap (fun r =>
      let text := strLower ((r.title.getD "") ++ " " ++ (r.description.getD "") ++ " "
        ++ (r.targeted_audiences.getD "") ++ " " ++ (r.perimeter.getD ""))
      if country_codes.any (fun code =>
          strHasSub text (strLower code)
          || strHasSub text (strLower ((assocFind EUROPEAN_COUNTRIES code).getD ""))
          || strHasSub text (strLower region_name)) then
        some { r with filtered_region := some region_name }
      else none)

/-- Title-based deduplication of the European results (api.py 932-938):
drops a record whose lowercased title was already seen. -/
def dedup_by_title : List Opportunity → List String → List Opportunity
  | [], _ => []
  | r :: rest, seen =>
    let tl := strLower (r.title.getD "")
    if seen.contains tl then dedup_by_title rest seen
    else r :: dedup_by_title rest (tl :: seen)

/-- Embedding of `TEDEuropaAPI.search_european_subventions` (api.py
909-941): dynamic data, optional region filter, title dedup, truncation. -/
def search_european_subventions (env : SearchEnv) (keywords region : String) (limit : Nat) :
    List Opportunity :=
  let all := search_dynamic_european_data env keywords limit
  let all := if region ≠ "" then filter_by_region all region else all
  (dedup_by_title all []).take limit

/-- The ten Colombian culture opportunities (api.py 1078-1212), with the
fields read by the pipeline under specification (these records have no
`url` and no `amount_max` key). -/
def culture_opportunities (env : SearchEnv) : List Opportunity :=
  [{ title := some "Programa Nacional de Estímulos - Artes Visuales",
     description := some "Convocatoria anual del Ministerio de Cultura para apoyar proyectos de artes visuales, incluyendo pintura, escultura, fotografía, videoarte y nuevos medios.",
     days_until_deadline := some (env.daysUntil "2025-09-15"),
     location := some "Nacional - Todas las ciudades",
     category := some "Artes y Cultura",
     website := some "https://www.mincultura.gov.co/areas/artes/estimulos" },
   { title := some "Becas de Creación Artística - Bogotá",
     description := some "Programa del IDARTES para apoyar procesos de creación en todas las disciplinas artísticas en Bogotá.",
     days_until_deadline := some (env.daysUntil "2025-10-30"),
     location := some "Bogotá",
     category := some "Artes y Cultura",
     website := some "https://www.idartes.gov.co/becas" },
   { title := some "Fondo de Desarrollo Cinematográfico - PROIMÁGENES",
     description := some "Apoyo para proyectos de desarrollo, producción y posproducción de obras cinematográficas y audiovisuales.",
     days_until_deadline := some (env.daysUntil "2025-11-20"),
     location := some "Nacional",
     category := some "Audiovisual",
     website := some "https://www.proimagenescolombia.com/secciones/fondo_desarrollo_cinematografico/fondo_desarrollo_cinematografico.php" },
   { title := some "Convocatoria Artistas Jóvenes - Medellín",
     description := some "Programa de la Alcaldía de Medellín para apoyar proyectos artísticos de jóvenes entre 18 y 28 años.",
     days_until_deadline := some (env.daysUntil "2025-08-25"),
     location := some "Medellín",
     category := some "Juventud y Arte",
     website := some "https://www.medellin.gov.co/irj/portal/medellin?NavigationTarget=navurl://cultura" },
   { title := some "Programa de Emprendimiento Cultural - INNPULSA",
     description := some "Financiación para emprendimientos culturales y creativos con potencial de crecimiento y generación de empleo.",
     days_until_deadline := some (env.daysUntil "2025-12-15"),
     location := some "Nacional",
     category := some "Emprendimiento Cultural",
     website := some "https://www.innpulsacolombia.com/convocatorias" },
   { title := some "Residencias Artísticas - Cali",
     description := some "Programa de residencias artísticas internacionales y nacionales en la ciudad de Cali.",
     days_until_deadline := some (env.daysUntil "2025-09-08"),
     location := some "Cali",
     category := some "Residencias Artísticas",
     website := some "https://www.cali.gov.co/cultura/publicaciones/convocatorias" },
   { title := some "Becas de Investigación Cultural - COLCIENCIAS",
     description := some "Apoyo para proyectos de investigación en cultura, patrimonio y artes.",
     days_until_deadline := some (env.daysUntil "2025-11-30"),
     location := some "Nacional",
     category := some "Investigación Cultural",
     website := some "https://minciencias.gov.co/convocatorias" },
   { title := some "Fondo de Artes Escénicas - Barranquilla",
     description := some "Apoyo para montajes teatrales, danza y música en el Caribe colombiano.",
     days_until_deadline := some (env.daysUntil "2025-10-10"),
     location := some "Barranquilla",
     category := some "Artes Escénicas",
     website := some "https://www.barranquilla.gov.co/cultura" },
   { title := some "Programa Nacional de Bandas - Música",
     description := some "Fortalecimiento de bandas musicales municipales y departamentales.",
     days_until_deadline := some (env.daysUntil "2025-11-05"),
     location := some "Nacional - Municipios",
     category := some "Música",
     website := some "https://www.mincultura.gov.co/areas/artes/musica/Paginas/default.aspx" },
   { title := some "Convocatoria de Literatura - Cartagena",
     description := some "Apoyo para publicación de obras literarias y proyectos editoriales.",
     days_until_deadline := some (env.daysUntil "2025-09-20"),
     location := some "Cartagena",
     category := some "Literatura",
     website := some "https://www.cartagena.gov.co/cultura" }]

/-- Embedding of `SubventionSearcher.search_colombian_funding` (api.py
1065-1246): static records filtered by split keywords against
title/description/category and by region cities against the location, then
truncated at `limit` when `limit` is non-zero. -/
def search_colombian_funding (env : SearchEnv) (keywords region : String) (limit : Nat) :
    List Opportunity :=
  let target_cities :=
    if region ≠ "" ∧ (assocFind COLOMBIAN_REGIONS region).isSome then
      ((assocFind COLOMBIAN_REGIONS (strUpper region)).map (fun p => p.2)).getD []
    else []
  let results := (culture_opportunities env).filter (fun opp =>
    (if keywords ≠ "" then
      (strSplitWs keywords).any (fun kw =>
        strHasSub (strLower (opp.title.getD "")) (strLower kw)
        || strHasSub (strLower (opp.description.getD "")) (strLower kw)
        || strHasSub (strLower (opp.category.getD "")) (strLower kw))
     else true)
    && (if target_cities ≠ [] then
      target_cities.any (fun code =>
        let city_name := strLower ((assocFind COLOMBIAN_CITIES code).getD "")
        city_name ≠ ""
        && (strHasSub (strLower (opp.location.getD "")) city_name
            || strLower (opp.location.getD "") = "nacional"))
     else true))
  if limit ≠ 0 then results.take limit else results

/-- The dictionary returned by `search_all`. -/
structure SearchResults where
  french : List Opportunity
  european : List Opportunity
  colombian : List Opportunity
deriving Repr, DecidableEq

/-- Embedding of `SubventionSearcher.search_all` (api.py 988-1049): the
limit is divided by the number of active sources, each adapter is invoked
with that share, and each per-source list is urgency-sorted. -/
def search_all (env : SearchEnv) (keywords region european_region colombian_region : String)
    (include_european include_colombian : Bool) (limit : Nat) : SearchResults :=
  let active := 1 + (if include_european then 1 else 0) + (if include_colombian then 1 else 0)
  let search_limit := limit / active
  let french := search_subventions env keywords region search_limit
  let european :=
    if include_european then
      search_european_subventions env keywords european_region search_limit
    else []
  let colombian :=
    if include_colombian then
      search_colombian_funding env keywords colombian_region search_limit
    else []
  { french := sort_by_deadline french,
    european := sort_by_deadline european,
    colombian := sort_by_deadline colombian }

/-- A concrete environment: the French API answers 401 (the fallback path
the source itself logs as expected), the OpenAIRE call fails, and the
library calls are fixed values. -/
def sampleEnv : SearchEnv :=
  { frenchApi := fun _ _ _ => FrenchApiOutcome.authRequired,
    openaire := fun _ _ => none,
    linkCheck := fun _ => (false, "❌ Timeout"),
    daysUntil := fun _ => 999,
    todayStr := "01/01/2025",
    dateAhead := fun _ => "01/01/2025",
    formatDate := fun s => s,
    cleanHtml := fun s => s,
    cleanText := fun s => s }

/-! ## Funding aggregation of `create_analysis_log` (app.py 1034-1048) -/

/-- The amount normalization of app.py 1039: strip thousands separators and
the currency markers, then surrounding whitespace. -/
def stripAmount (s : String) : String :=
  strTrim (pyReplace (pyReplace (pyReplace s "," "") "€" "") "EUR" "")

/-- Embedding of the funding-aggregation loop (app.py 1034-1043): each
record's `result.get('amount_max', '0')` is stripped; a truthy all-digit
value is collected, anything else is skipped.  All `amount_max` values in
the repository's data are strings, so the `AttributeError` branch of the
`try` is unreachable. -/
def analysis_amounts : List Opportunity → List Nat
  | [] => []
  | r :: rest =>
    let cleaned := stripAmount (r.amount_max.getD "0")
    if strIsDigits cleaned then strToNat cleaned :: analysis_amounts rest
    else analysis_amounts rest

/-- Total funding of app.py 1045 (`sum(amounts) if amounts else 0`). -/
def total_funding (results : List Opportunity) : Nat := (analysis_amounts results).sum

/-- The claim's contribution test, stated from the claim's words: after
stripping commas, the currency markers and surrounding whitespace, the value
is a non-empty string of digits. -/
def claimPlainInteger (s : String) : Bool := strIsDigits (stripAmount s)

/-! ## Theorems -/

/-- A non-empty leading segment pins down the head. -/
theorem listLeads_head {a : Char} {ps l : List Char} (h : listLeads (a :: ps) l = true) :
    l.head? = some a := by
  cases l with
  | nil => exact absurd h (by simp [listLeads])
  | cons b bs =>
    simp only [listLeads, Bool.and_eq_true, decide_eq_true_eq] at h
    simp [h.1]

/-- Matching a leading segment consumes equal heads. -/
theorem listLeads_cons_same {ps l : List Char} (a : Char) :
    listLeads (a :: ps) (a :: l) = listLeads ps l := by
  simp [listLeads]

/-- A list not headed by a slash has no leading single slash. -/
theorem listLeads_one_false {l : List Char} (h : l.head? ≠ some '/') :
    listLeads ['/'] l = false := by
  cases l with
  | nil => rfl
  | cons b bs =>
    have hb : b ≠ '/' := fun hbb => h (by simp [hbb])
    simp [listLeads]
    intro hb2
    exact absurd hb2.symm hb

/-- A list not headed by a slash has no leading double slash. -/
theorem listLeads_two_false {l : List Char} (h : l.head? ≠ some '/') :
    listLeads dblSlash l = false := by
  cases l with
  | nil => rfl
  | cons b bs =>
    have hb : b ≠ '/' := fun hbb => h (by simp [hbb])
    simp [dblSlash, listLeads]
    intro hb2
    exact absurd hb2.symm hb

/-- A list not headed by a slash has no leading triple slash. -/
theorem listLeads_tri_false {l : List Char} (h : l.head? ≠ some '/') :
    listLeads triSlash l = false := by
  cases l with
  | nil => rfl
  | cons b bs =>
    have hb : b ≠ '/' := fun hbb => h (by simp [hbb])
    simp [triSlash, listLeads]
    intro hb2
    exact absurd hb2.symm hb

/-- Failing occurrence at the head and in the tail. -/
theorem subOccurs_cons_elim {pat : List Char} {c : Char} {l : List Char}
    (h : subOccurs pat (c :: l) = false) :
    listLeads pat (c :: l) = false ∧ subOccurs pat l = false := by
  simpa [subOccurs] using h

/-- A longer pattern occurs only where its front part occurs. -/
theorem listLeads_of_extend {a : Char} : ∀ {p l : List Char},
    listLeads (p ++ [a]) l = true → listLeads p l = true := by
  intro p
  induction p with
  | nil => intro l _; rfl
  | cons b bs ih =>
    intro l h
    cases l with
    | nil => exact absurd h (by simp [listLeads])
    | cons c cs =>
      simp only [List.cons_append, listLeads, Bool.and_eq_true] at h ⊢
      exact ⟨h.1, ih h.2⟩

/-- Occurrence of an extended pattern implies occurrence of the pattern. -/
theorem subOccurs_of_extend {a : Char} : ∀ {p l : List Char},
    subOccurs (p ++ [a]) l = true → subOccurs p l = true := by
  intro p l
  induction l with
  | nil => intro h; exact absurd h (by simp [subOccurs])
  | cons c cs ih =>
    intro h
    simp only [subOccurs, Bool.or_eq_true] at h ⊢
    rcases h with h | h
    · exact Or.inl (listLeads_of_extend h)
    · exact Or.inr (ih h)

/-- Replacing a pattern that does not occur is the identity. -/
theorem replaceStep_id {pat rep : List Char} : ∀ {s : List Char},
    subOccurs pat s = false → replaceStep pat rep 0 s = s := by
  intro s
  induction s with
  | nil => intro _; rfl
  | cons c cs ih =>
    intro h
    obtain ⟨h1, h2⟩ := subOccurs_cons_elim h
    rw [replaceStep, if_neg (by simp [h1]), ih h2]

/-- Replacing `///` by `//` preserves the first character. -/
theorem replaceStep_tri_head : ∀ (s : List Char),
    (replaceStep triSlash dblSlash 0 s).head? = s.head? := by
  intro s
  cases s with
  | nil => rfl
  | cons c cs =>
    rw [replaceStep]
    by_cases hm : listLeads triSlash (c :: cs) = true
    · rw [if_pos hm]
      have hc : c = '/' := by
        have hm2 : listLeads ('/' :: dblSlash) (c :: cs) = true := hm
        have := listLeads_head hm2
        simpa using this
      simp [dblSlash, hc]
    · rw [if_neg hm]
      rfl

/-- Core of the C5 analysis: on an input with no quadruple-slash run,
`s.replace('///','//')` leaves no triple-slash run behind. -/
theorem replaceStep_no_triple : ∀ (n : Nat) (s : List Char), s.length ≤ n →
    subOccurs quadSlash s = false →
    subOccurs triSlash (replaceStep triSlash dblSlash 0 s) = false := by
  intro n
  induction n with
  | zero =>
    intro s hlen _
    have hs : s = [] := List.length_eq_zero.mp (Nat.le_zero.mp hlen)
    subst hs
    rfl
  | succ n ih =>
    intro s hlen hq
    match s with
    | [] => rfl
    | c :: rest =>
      obtain ⟨hq1, hq2⟩ := subOccurs_cons_elim hq
      by_cases hm : listLeads triSlash (c :: rest) = true
      · match rest, hq1, hq2, hm with
        | [], _, _, hm => exact absurd hm (by simp [listLeads, triSlash])
        | [r1], _, _, hm => exact absurd hm (by simp [listLeads, triSlash])
        | r1 :: r2 :: rest2, hq1, hq2, hm =>
          have hc : '/' = c ∧ '/' = r1 ∧ '/' = r2 := by
            simpa [listLeads, triSlash] using hm
          obtain ⟨hc1, hc2, hc3⟩ := hc
          subst hc1
          subst hc2
          subst hc3
          have hr2 : rest2.head? ≠ some '/' := by
            intro hh
            cases rest2 with
            | nil => exact absurd hh (by simp)
            | cons d rest3 =>
              have hd : d = '/' := by simpa using hh
              subst hd
              exact absurd hq1 (by simp [listLeads, quadSlash])
          have hred : replaceStep triSlash dblSlash 0 ('/' :: '/' :: '/' :: rest2) =
              '/' :: '/' :: replaceStep triSlash dblSlash 0 rest2 := by
            rw [replaceStep, if_pos hm]
            rfl
          rw [hred]
          have hq3 : subOccurs quadSlash rest2 = false :=
            (subOccurs_cons_elim (subOccurs_cons_elim hq2).2).2
          have hlen2 : rest2.length ≤ n := by
            simp only [List.length_cons] at hlen
            omega
          have ihr := ih rest2 hlen2 hq3
          have hTh : (replaceStep triSlash dblSlash 0 rest2).head? ≠ some '/' := by
            rw [replaceStep_tri_head]
            exact hr2
          have h1 : listLeads triSlash
              ('/' :: '/' :: replaceStep triSlash dblSlash 0 rest2) = false := by
            show listLeads ('/' :: '/' :: '/' :: [])
              ('/' :: '/' :: replaceStep triSlash dblSlash 0 rest2) = false
            rw [listLeads_cons_same, listLeads_cons_same]
            exact listLeads_one_false hTh
          have h2 : listLeads triSlash
              ('/' :: replaceStep triSlash dblSlash 0 rest2) = false := by
            show listLeads ('/' :: '/' :: '/' :: [])
              ('/' :: replaceStep triSlash dblSlash 0 rest2) = false
            rw [listLeads_cons_same]
            exact listLeads_two_false hTh
          show (listLeads triSlash ('/' :: '/' :: replaceStep triSlash dblSlash 0 rest2)
            || (listLeads triSlash ('/' :: replaceStep triSlash dblSlash 0 rest2)
              || subOccurs triSlash (replaceStep triSlash dblSlash 0 rest2))) = false
          rw [h1, h2, ihr]
          rfl
      · have hred : replaceStep triSlash dblSlash 0 (c :: rest) =
            c :: replaceStep triSlash dblSlash 0 rest := by
          rw [replaceStep, if_neg hm]
        rw [hred]
        have hlen2 : rest.length ≤ n := by
          simp only [List.length_cons] at hlen
          omega
        have ihr := ih rest hlen2 hq2
        have hlead : listLeads triSlash (c :: replaceStep triSlash dblSlash 0 rest) = false := by
          by_cases hcs : c = '/'
          · subst hcs
            show listLeads ('/' :: '/' :: '/' :: [])
              ('/' :: replaceStep triSlash dblSlash 0 rest) = false
            rw [listLeads_cons_same]
            match rest with
            | [] => rfl
            | d :: rest1 =>
              by_cases hds : d = '/'
              · subst hds
                have hr1 : rest1.head? ≠ some '/' := by
                  intro hh
                  cases rest1 with
                  | nil => exact absurd hh (by simp)
                  | cons e rest3 =>
                    have he : e = '/' := by simpa using hh
                    subst he
                    exact hm (by simp [listLeads, triSlash])
                have hnm : ¬ listLeads triSlash ('/' :: rest1) = true := by
                  intro hh
                  have hh2 : listLeads ('/' :: dblSlash) ('/' :: rest1) = true := hh
                  rw [listLeads_cons_same, listLeads_two_false hr1] at hh2
                  exact absurd hh2 (by simp)
                have hred2 : replaceStep triSlash dblSlash 0 ('/' :: rest1) =
                    '/' :: replaceStep triSlash dblSlash 0 rest1 := by
                  rw [replaceStep, if_neg hnm]
                rw [hred2]
                show listLeads ('/' :: '/' :: [])
                  ('/' :: replaceStep triSlash dblSlash 0 rest1) = false
                rw [listLeads_cons_same]
                have hTh1 : (replaceStep triSlash dblSlash 0 rest1).head? ≠ some '/' := by
                  rw [replaceStep_tri_head]
                  exact hr1
                exact listLeads_one_false hTh1
              · have hTh1 : (replaceStep triSlash dblSlash 0 (d :: rest1)).head?
                    ≠ some '/' := by
                  rw [replaceStep_tri_head]
                  intro hh
                  exact hds (by simpa using hh)
                exact listLeads_two_false hTh1
          · exact listLeads_tri_false (fun hh => hcs (by simpa using hh))
        show (listLeads triSlash (c :: replaceStep triSlash dblSlash 0 rest)
          || subOccurs triSlash (replaceStep triSlash dblSlash 0 rest)) = false
        rw [hlead, ihr]
        rfl

/-- C1. For a URL that is empty or lacks an `http://`/`https://` scheme,
`validate_url` answers `Invalid URL` without consulting the network: the
result does not depend on the oracle at all. -/
theorem validate_url_invalid (net net2 : String → NetOutcome) (timeout : Nat) (url : String)
    (h : url = "" ∨ (strStarts url "http://" || strStarts url "https://") = false) :
    (validate_url net timeout url).is_working = false ∧
    (validate_url net timeout url).status = "Invalid URL" ∧
    validate_url net timeout url = validate_url net2 timeout url := by
  have hc : (url = "" || !(strStarts url "http://" || strStarts url "https://")) = true := by
    rcases h with h | h
    · simp [h]
    · simp [h]
  refine ⟨?_, ?_, ?_⟩ <;> simp only [validate_url, hc, Bool.true_eq, if_true]

/-- C1 witness: the spec's scenario A input `ftp://old.example` is rejected as
`Invalid URL` under any two oracles. -/
theorem validate_url_invalid_witness :
    (validate_url (fun _ => NetOutcome.timeout) 10 "ftp://old.example").is_working = false ∧
    (validate_url (fun _ => NetOutcome.timeout) 10 "ftp://old.example").status = "Invalid URL" ∧
    validate_url (fun _ => NetOutcome.timeout) 10 "ftp://old.example"
      = validate_url (fun _ => NetOutcome.connectionError) 10 "ftp://old.example" :=
  validate_url_invalid (fun _ => NetOutcome.timeout) (fun _ => NetOutcome.connectionError)
    10 "ftp://old.example" (Or.inr (by decide))

/-- The validator only looks at the oracle's answer for its own URL. -/
theorem validate_url_ext (net net2 : String → NetOutcome) (timeout : Nat) (url : String)
    (h : net2 url = net url) : validate_url net2 timeout url = validate_url net timeout url := by
  simp only [validate_url, h]

/-- C9. On an empty original URL, `attempt_url_fix` stops before any
validation: the attempt history is empty, the status is `Not Fixed`, no
working URL is produced, the single issue `URL is empty` is reported, and the
result is independent of the network oracle. -/
theorem attempt_url_fix_empty (net net2 : String → NetOutcome) (t s : String) :
    attempt_url_fix net "" t s =
      { original_url := "", title := t, source := s, fix_attempts := [],
        final_status := "Not Fixed", working_url := none, fix_strategy := none,
        issues_found := ["URL is empty"] } ∧
    attempt_url_fix net "" t s = attempt_url_fix net2 "" t s :=
  ⟨rfl, rfl⟩

/-- C6. When the original URL already validates as working, `attempt_url_fix`
returns `Already Working` with `working_url` the original URL, exactly one
attempt (the original) in its history, and without any further validation:
the result only depends on the oracle's answer for the original URL. -/
theorem attempt_url_fix_already_working (net : String → NetOutcome) (orig t s : String)
    (h : (validate_url net 5 orig).is_working = true) :
    (attempt_url_fix net orig t s).final_status = "Already Working" ∧
    (attempt_url_fix net orig t s).working_url = some orig ∧
    (attempt_url_fix net orig t s).fix_attempts =
      [{ strategy := "Original URL", url := orig, status := (validate_url net 5 orig).status,
         working := true }] ∧
    (∀ net2 : String → NetOutcome, net2 orig = net orig →
      attempt_url_fix net2 orig t s = attempt_url_fix net orig t s) := by
  have hne : ¬ orig = "" := by
    intro he
    subst he
    exact absurd h (by simp [validate_url, strStarts, listLeads])
  refine ⟨?_, ?_, ?_, ?_⟩
  · simp only [attempt_url_fix, if_neg hne, h, if_true]
  · simp only [attempt_url_fix, if_neg hne, h, if_true]
  · simp only [attempt_url_fix, if_neg hne, h, if_true]
  · intro net2 h2
    simp only [attempt_url_fix, if_neg hne, validate_url_ext net net2 5 orig h2, h, if_true]

/-- C6 witness: under an oracle whose GET returns a parsed 200 response, the
original URL `https://x.org` is reported `Already Working` after a single
attempt. -/
theorem attempt_url_fix_already_working_witness :
    (validate_url (fun _ => NetOutcome.response 200 3 (Except.ok (none, ""))) 5 "https://x.org").is_working = true ∧
    (attempt_url_fix (fun _ => NetOutcome.response 200 3 (Except.ok (none, ""))) "https://x.org" "t" "s").final_status = "Already Working" ∧
    (attempt_url_fix (fun _ => NetOutcome.response 200 3 (Except.ok (none, ""))) "https://x.org" "t" "s").working_url = some "https://x.org" ∧
    (attempt_url_fix (fun _ => NetOutcome.response 200 3 (Except.ok (none, ""))) "https://x.org" "t" "s").fix_attempts.length = 1 :=
  ⟨by decide,
   (attempt_url_fix_already_working (fun _ => NetOutcome.response 200 3 (Except.ok (none, "")))
      "https://x.org" "t" "s" (by decide)).1,
   (attempt_url_fix_already_working (fun _ => NetOutcome.response 200 3 (Except.ok (none, "")))
      "https://x.org" "t" "s" (by decide)).2.1,
   by decide⟩

/-- C8. A 200 response whose body parse fails still classifies as `Working`
with `is_working = true`; the parse failure only fills `error_message`, and
the enrichment fields `page_title` / `contains_funding_keywords` keep their
defaults. -/
theorem validate_url_parse_failure (net : String → NetOutcome) (timeout ms : Nat)
    (url pmsg : String)
    (hstart : (strStarts url "http://" || strStarts url "https://") = true)
    (hnet : net url = NetOutcome.response 200 ms (Except.error pmsg)) :
    validate_url net timeout url =
      { url := url, status := "Working", status_code := some 200, response_time := some ms,
        error_message := some ("Content parsing failed: " ++ pmsg), is_working := true,
        contains_funding_keywords := false, page_title := none } := by
  have hne : ¬ url = "" := by
    intro he
    subst he
    exact absurd hstart (by decide)
  have hc : (url = "" || !(strStarts url "http://" || strStarts url "https://")) = false := by
    simp [hne, hstart]
  simp [validate_url, hc, hnet]
  exact ⟨hne, fun hf => by simpa [hf] using hstart⟩

/-- C8 witness: a concrete 200 response with a failing parse. -/
theorem validate_url_parse_failure_witness :
    (strStarts "https://x.org" "http://" || strStarts "https://x.org" "https://") = true ∧
    ((fun _ => NetOutcome.response 200 7 (Except.error "boom")) "https://x.org"
        = NetOutcome.response 200 7 (Except.error "boom")) ∧
    validate_url (fun _ => NetOutcome.response 200 7 (Except.error "boom")) 10 "https://x.org" =
      { url := "https://x.org", status := "Working", status_code := some 200,
        response_time := some 7, error_message := some "Content parsing failed: boom",
        is_working := true, contains_funding_keywords := false, page_title := none } :=
  ⟨by decide, rfl,
   validate_url_parse_failure (fun _ => NetOutcome.response 200 7 (Except.error "boom"))
     10 7 "https://x.org" "boom" (by decide) rfl⟩

/-- C5 counterexample: strategy 5 does not collapse a quadruple slash run to
a double slash.  On `http:////x` the first replace rewrites the leftmost
`///` to `//`, leaving `http:///x`, and the second replace then finds no
`////`: the output still contains a triple slash. -/
theorem fixStrategy5_quadruple_not_collapsed :
    fixStrategy5 "http:////x" = "http:///x" ∧
    strHasSub (fixStrategy5 "http:////x") "///" = true ∧
    fixStrategy5 "http:////x" ≠ "http://x" := by
  refine ⟨by decide, by decide, by decide⟩

/-- On a URL with no quadruple-slash run, strategy 5 removes every
triple-slash run. -/
theorem fixStrategy5_no_quad (u : String) (h : strHasSub u "////" = false) :
    strHasSub (fixStrategy5 u) "///" = false := by
  have h1 : subOccurs quadSlash u.data = false := h
  have h2 := replaceStep_no_triple u.data.length u.data le_rfl h1
  have h3 : subOccurs quadSlash (replaceStep triSlash dblSlash 0 u.data) = false := by
    by_cases hx : subOccurs quadSlash (replaceStep triSlash dblSlash 0 u.data) = true
    · have hx2 : subOccurs (triSlash ++ ['/'])
          (replaceStep triSlash dblSlash 0 u.data) = true := hx
      have hx3 := subOccurs_of_extend hx2
      rw [h2] at hx3
      exact absurd hx3 (by simp)
    · simpa using hx
  show subOccurs triSlash
    (replaceStep quadSlash dblSlash 0 (replaceStep triSlash dblSlash 0 u.data)) = false
  rw [replaceStep_id h3]
  exact h2

/-- C5 amended: strategy 5 collapses a triple slash run to a double slash —
on any input with no quadruple-slash run, no triple slash survives — but it
reduces a quadruple run only to a triple slash (the first replacement
consumes three of its four slashes and the second replacement no longer sees
a `////`). -/
theorem fixStrategy5_behavior :
    fixStrategy5 "http:///x" = "http://x" ∧
    fixStrategy5 "a///b" = "a//b" ∧
    fixStrategy5 "////" = "///" ∧
    fixStrategy5 "http:////x" = "http:///x" ∧
    (∀ u : String, strHasSub u "////" = false → strHasSub (fixStrategy5 u) "///" = false) := by
  refine ⟨by decide, by decide, by decide, by decide, fixStrategy5_no_quad⟩

/-- C5 witness for the amended theorem's universally quantified clause, at
the concrete quadruple-free input `http:///x//y`. -/
theorem fixStrategy5_behavior_witness :
    strHasSub "http:///x//y" "////" = false ∧
    strHasSub (fixStrategy5 "http:///x//y") "///" = false :=
  ⟨by decide,
   (fixStrategy5_behavior.2.2.2.2) "http:///x//y" (by decide)⟩

/-- Each candidate loop preserves distinctness of validated URLs and either
stays `Not Fixed` with only failing attempts, or stops `Fixed` right at its
first working candidate. -/
theorem tryCandidates_post (net : String → NetOutcome) (skip : Option String)
    (cands : List (String × String)) (acc : FixResult)
    (hnd : (acc.fix_attempts.map FixAttempt.url).Nodup)
    (hinv : NotFixedInv acc) :
    ((tryCandidates net skip cands acc).fix_attempts.map FixAttempt.url).Nodup ∧
    (NotFixedInv (tryCandidates net skip cands acc) ∨
     FixedInv (tryCandidates net skip cands acc)) := by
  induction cands generalizing acc with
  | nil => exact ⟨hnd, Or.inl hinv⟩
  | cons p rest ih =>
    obtain ⟨name, u⟩ := p
    obtain ⟨hst, hwu, hfs, hw⟩ := hinv
    show ((tryCandidates net skip ((name, u) :: rest) acc).fix_attempts.map FixAttempt.url).Nodup ∧ _
    rw [tryCandidates]
    by_cases hskip : skip = some u
    · rw [if_pos hskip]
      exact ih acc hnd ⟨hst, hwu, hfs, hw⟩
    · rw [if_neg hskip]
      by_cases hseen : acc.fix_attempts.any (fun a => a.url = u) = true
      · rw [if_pos hseen]
        exact ih acc hnd ⟨hst, hwu, hfs, hw⟩
      · rw [if_neg (by simpa using hseen)]
        have hnotmem : u ∉ acc.fix_attempts.map FixAttempt.url := by
          intro hmem
          obtain ⟨a, ha, hau⟩ := List.mem_map.1 hmem
          exact hseen (List.any_eq_true.2 ⟨a, ha, by simp [hau]⟩)
        have hnd2 : ((acc.fix_attempts ++
            [({ strategy := name, url := u, status := (validate_url net 5 u).status,
                working := (validate_url net 5 u).is_working,
                response_time := (validate_url net 5 u).response_time,
                page_title := (validate_url net 5 u).page_title } : FixAttempt)]).map
              FixAttempt.url).Nodup := by
          rw [List.map_append, List.map_singleton, ← List.concat_eq_append]
          exact List.Nodup.concat hnotmem hnd
        by_cases hv : (validate_url net 5 u).is_working = true
        · rw [if_pos hv]
          refine ⟨hnd2, Or.inr ⟨rfl, ⟨_, List.getLast?_concat _, by simpa using hv, rfl, rfl⟩, ?_⟩⟩
          intro b hb
          rw [List.dropLast_concat] at hb
          exact hw b hb
        · rw [if_neg hv]
          refine ih _ hnd2 ⟨hst, hwu, hfs, ?_⟩
          intro a ha
          rcases List.mem_append.1 ha with ha | ha
          · exact hw a ha
          · rw [List.mem_singleton] at ha
            subst ha
            simpa using Bool.not_eq_true _ ▸ hv

/-- The issue-diagnosis pass only appends to `issues_found`. -/
theorem analyzeIssues_fields (orig : String) (r : FixResult) :
    (analyzeIssues orig r).fix_attempts = r.fix_attempts ∧
    (analyzeIssues orig r).final_status = r.final_status ∧
    (analyzeIssues orig r).working_url = r.working_url ∧
    (analyzeIssues orig r).fix_strategy = r.fix_strategy := by
  unfold analyzeIssues
  split
  · exact ⟨rfl, rfl, rfl, rfl⟩
  · exact ⟨rfl, rfl, rfl, rfl⟩

/-- Master invariant of `attempt_url_fix`: the validated URLs in the attempt
history are pairwise distinct, and the run ends in exactly one of the three
terminal shapes. -/
theorem attempt_url_fix_inv (net : String → NetOutcome) (orig t s : String) :
    ((attempt_url_fix net orig t s).fix_attempts.map FixAttempt.url).Nodup ∧
    (NotFixedInv (attempt_url_fix net orig t s) ∨
     AlreadyWorkingInv net orig (attempt_url_fix net orig t s) ∨
     FixedInv (attempt_url_fix net orig t s)) := by
  by_cases he : orig = ""
  · subst he
    exact ⟨by simp [attempt_url_fix], Or.inl ⟨rfl, rfl, rfl, by simp [attempt_url_fix]⟩⟩
  · by_cases hv : (validate_url net 5 orig).is_working = true
    · have h := attempt_url_fix_already_working net orig t s hv
      refine ⟨?_, Or.inr (Or.inl ⟨h.1, h.2.1, ?_, hv, h.2.2.1⟩)⟩
      · rw [h.2.2.1]
        exact List.nodup_singleton _
      · simp only [attempt_url_fix, if_neg he, hv, if_true]
    · rw [Bool.not_eq_true] at hv
      have hstep :
          attempt_url_fix net orig t s =
            analyzeIssues orig
              (let acc0 : FixResult :=
                { original_url := orig, title := t, source := s,
                  fix_attempts :=
                    [{ strategy := "Original URL", url := orig,
                       status := (validate_url net 5 orig).status,
                       working := (validate_url net 5 orig).is_working }],
                  final_status := "Not Fixed", working_url := none, fix_strategy := none,
                  issues_found := [] }
              let r1 := tryCandidates net (some orig)
                (fix_strategies.map (fun p => (p.1, p.2 orig))) acc0
              if r1.final_status = "Not Fixed" then
                tryCandidates net none
                  ((domainCandidates orig).map (fun u => ("Domain-specific fix", u))) r1
              else r1) := by
        simp only [attempt_url_fix, if_neg he, hv, Bool.false_eq_true, if_false]
      rw [hstep]
      set acc0 : FixResult :=
        { original_url := orig, title := t, source := s,
          fix_attempts :=
            [{ strategy := "Original URL", url := orig,
               status := (validate_url net 5 orig).status,
               working := (validate_url net 5 orig).is_working }],
          final_status := "Not Fixed", working_url := none, fix_strategy := none,
          issues_found := [] } with hacc0
      have hpost1 := tryCandidates_post net (some orig)
        (fix_strategies.map (fun p => (p.1, p.2 orig))) acc0
        (by rw [hacc0]; exact List.nodup_singleton _)
        (by
          refine ⟨rfl, rfl, rfl, ?_⟩
          intro a ha
          rw [hacc0] at ha
          rw [List.mem_singleton] at ha
          subst ha
          exact hv)
      set r1 := tryCandidates net (some orig)
        (fix_strategies.map (fun p => (p.1, p.2 orig))) acc0 with hr1
      have hpost2 :
          ((if r1.final_status = "Not Fixed" then
              tryCandidates net none
                ((domainCandidates orig).map (fun u => ("Domain-specific fix", u))) r1
            else r1).fix_attempts.map FixAttempt.url).Nodup ∧
          (NotFixedInv (if r1.final_status = "Not Fixed" then
              tryCandidates net none
                ((domainCandidates orig).map (fun u => ("Domain-specific fix", u))) r1
            else r1) ∨
           FixedInv (if r1.final_status = "Not Fixed" then
              tryCandidates net none
                ((domainCandidates orig).map (fun u => ("Domain-specific fix", u))) r1
            else r1)) := by
        by_cases hnf : r1.final_status = "Not Fixed"
        · rw [if_pos hnf]
          rcases hpost1.2 with hinv | hinv
          · exact tryCandidates_post net none _ r1 hpost1.1 hinv
          · exact absurd hnf (by rw [hinv.1]; decide)
        · rw [if_neg hnf]
          rcases hpost1.2 with hinv | hinv
          · exact absurd hinv.1 hnf
          · exact ⟨hpost1.1, Or.inr hinv⟩
      set r2 := (if r1.final_status = "Not Fixed" then
          tryCandidates net none
            ((domainCandidates orig).map (fun u => ("Domain-specific fix", u))) r1
        else r1) with hr2
      obtain ⟨ha1, ha2, ha3, ha4⟩ := analyzeIssues_fields orig r2
      refine ⟨by rw [ha1]; exact hpost2.1, ?_⟩
      rcases hpost2.2 with ⟨p1, p2, p3, p4⟩ | ⟨p1, p2, p3⟩
      · exact Or.inl ⟨by rw [ha2, p1], by rw [ha3, p2], by rw [ha4, p3], by rw [ha1]; exact p4⟩
      · exact Or.inr (Or.inr ⟨by rw [ha2, p1], by
          obtain ⟨a, q1, q2, q3, q4⟩ := p2
          exact ⟨a, by rw [ha1]; exact q1, q2, by rw [ha3]; exact q3, by rw [ha4]; exact q4⟩,
          by rw [ha1]; exact p3⟩)

/-- C2. On a broken original URL, the repair run never validates the same
URL string twice (the attempt history's URLs are pairwise distinct), every
attempt before the last one reported not working — so the candidate loops
stopped at the first working candidate — and the final status is `Fixed`
exactly when some validated candidate worked. -/
theorem attempt_url_fix_no_revalidation (net : String → NetOutcome) (orig t s : String)
    (h : (validate_url net 5 orig).is_working = false) :
    ((attempt_url_fix net orig t s).fix_attempts.map FixAttempt.url).Nodup ∧
    (∀ a ∈ (attempt_url_fix net orig t s).fix_attempts.dropLast, a.working = false) ∧
    ((attempt_url_fix net orig t s).final_status = "Fixed" ↔
      ∃ a ∈ (attempt_url_fix net orig t s).fix_attempts, a.working = true) := by
  obtain ⟨hnd, hshape⟩ := attempt_url_fix_inv net orig t s
  rcases hshape with ⟨p1, _, _, p4⟩ | ⟨_, _, _, p4, _⟩ | ⟨p1, ⟨a, q1, q2, q3, q4⟩, p3⟩
  · refine ⟨hnd, fun a ha => p4 a ((List.dropLast_sublist _).subset ha), ?_⟩
    constructor
    · intro hfx
      exact absurd (p1.symm.trans hfx) (by decide)
    · rintro ⟨a, ha, haw⟩
      exact absurd (p4 a ha) (by simp [haw])
  · exact absurd p4 (by simp [h])
  · refine ⟨hnd, p3, ?_⟩
    constructor
    · intro _
      exact ⟨a, List.mem_of_getLast?_eq_some q1, q2⟩
    · intro _
      exact p1

/-- C2 witness: a broken URL under an oracle on which every candidate fails;
the attempt history has pairwise-distinct URLs, all attempts failed, and the
status is not `Fixed`. -/
theorem attempt_url_fix_no_revalidation_witness :
    (validate_url (fun _ => NetOutcome.connectionError) 5 "http://x").is_working = false ∧
    (((attempt_url_fix (fun _ => NetOutcome.connectionError) "http://x" "" "").fix_attempts.map
        FixAttempt.url).Nodup ∧
      (∀ a ∈ (attempt_url_fix (fun _ => NetOutcome.connectionError) "http://x" "" "").fix_attempts.dropLast,
        a.working = false) ∧
      ((attempt_url_fix (fun _ => NetOutcome.connectionError) "http://x" "" "").final_status = "Fixed" ↔
        ∃ a ∈ (attempt_url_fix (fun _ => NetOutcome.connectionError) "http://x" "" "").fix_attempts,
          a.working = true)) :=
  ⟨by decide,
   attempt_url_fix_no_revalidation (fun _ => NetOutcome.connectionError) "http://x" "" ""
     (by decide)⟩

/-- C10. Every repair result carries a working URL exactly when its status is
`Fixed` or `Already Working`, and a `Fixed` result names the winning
strategy: some recorded attempt validated as working, and its strategy name
and URL are the result's `fix_strategy` and `working_url`. -/
theorem attempt_url_fix_status_iff (net : String → NetOutcome) (orig t s : String) :
    ((attempt_url_fix net orig t s).working_url ≠ none ↔
      ((attempt_url_fix net orig t s).final_status = "Fixed" ∨
       (attempt_url_fix net orig t s).final_status = "Already Working")) ∧
    ((attempt_url_fix net orig t s).final_status = "Fixed" →
      ∃ a ∈ (attempt_url_fix net orig t s).fix_attempts, a.working = true ∧
        (attempt_url_fix net orig t s).fix_strategy = some a.strategy ∧
        (attempt_url_fix net orig t s).working_url = some a.url) := by
  obtain ⟨_, hshape⟩ := attempt_url_fix_inv net orig t s
  rcases hshape with ⟨p1, p2, _, _⟩ | ⟨p1, p2, _, _, _⟩ | ⟨p1, ⟨a, q1, q2, q3, q4⟩, _⟩
  · constructor
    · rw [p1, p2]
      simp
    · intro hfx
      exact absurd (p1.symm.trans hfx) (by decide)
  · constructor
    · rw [p1, p2]
      simp
    · intro hfx
      exact absurd (p1.symm.trans hfx) (by decide)
  · constructor
    · rw [p1, q3]
      simp
    · intro _
      exact ⟨a, List.mem_of_getLast?_eq_some q1, q2, q4, q3⟩

/-- The sort key is exactly (claimed bucket, day count). -/
theorem get_deadline_priority_eq (item : Opportunity) :
    get_deadline_priority item = (urgencyBucket (daysOf item), daysOf item) := by
  simp only [get_deadline_priority, urgencyBucket]
  split_ifs <;> rfl

/-- The key order is transitive. -/
theorem priorityLe_trans (a b c : Opportunity)
    (h1 : priorityLe (get_deadline_priority a) (get_deadline_priority b) = true)
    (h2 : priorityLe (get_deadline_priority b) (get_deadline_priority c) = true) :
    priorityLe (get_deadline_priority a) (get_deadline_priority c) = true := by
  simp only [priorityLe, Bool.or_eq_true, Bool.and_eq_true, decide_eq_true_eq] at h1 h2 ⊢
  rcases h1 with h1 | ⟨h1e, h1d⟩ <;> rcases h2 with h2 | ⟨h2e, h2d⟩
  · exact Or.inl (lt_trans h1 h2)
  · exact Or.inl (h2e ▸ h1)
  · exact Or.inl (h1e ▸ h2)
  · exact Or.inr ⟨h1e.trans h2e, le_trans h1d h2d⟩

/-- The key order is total. -/
theorem priorityLe_total (a b : Opportunity) :
    (priorityLe (get_deadline_priority a) (get_deadline_priority b) ||
     priorityLe (get_deadline_priority b) (get_deadline_priority a)) = true := by
  simp only [priorityLe, Bool.or_eq_true, Bool.and_eq_true, decide_eq_true_eq]
  omega

/-- C3. After the urgency sort: adjacent records have non-decreasing urgency
buckets, and equal buckets are ordered by ascending day count; a record with
no `days_until_deadline` gets sentinel 999 and bucket 3, and never precedes
it any record whose day count is at most 90. -/
theorem sort_by_deadline_ordered (l : List Opportunity) :
    List.Chain'
      (fun a b => urgencyBucket (daysOf a) ≤ urgencyBucket (daysOf b) ∧
        (urgencyBucket (daysOf a) = urgencyBucket (daysOf b) → daysOf a ≤ daysOf b))
      (sort_by_deadline l) ∧
    List.Pairwise
      (fun a b => a.days_until_deadline = none → ¬ daysOf b ≤ 90)
      (sort_by_deadline l) ∧
    (∀ a : Opportunity, a.days_until_deadline = none →
      daysOf a = 999 ∧ urgencyBucket (daysOf a) = 3) := by
  have hsorted :
      (sort_by_deadline l).Pairwise
        (fun a b => priorityLe (get_deadline_priority a) (get_deadline_priority b) = true) :=
    List.sorted_mergeSort priorityLe_trans priorityLe_total l
  have hkey : ∀ a b : Opportunity,
      priorityLe (get_deadline_priority a) (get_deadline_priority b) = true →
      urgencyBucket (daysOf a) ≤ urgencyBucket (daysOf b) ∧
        (urgencyBucket (daysOf a) = urgencyBucket (daysOf b) → daysOf a ≤ daysOf b) := by
    intro a b h
    rw [get_deadline_priority_eq, get_deadline_priority_eq] at h
    simp only [priorityLe, Bool.or_eq_true, Bool.and_eq_true, decide_eq_true_eq] at h
    rcases h with h | ⟨he, hd⟩
    · exact ⟨le_of_lt h, fun he => absurd he (ne_of_lt h)⟩
    · exact ⟨le_of_eq he, fun _ => hd⟩
  refine ⟨(hsorted.imp ?_).chain', hsorted.imp ?_, ?_⟩
  · intro a b h
    exact hkey a b h
  · intro a b h hnone
    rw [get_deadline_priority_eq, get_deadline_priority_eq] at h
    have hda : daysOf a = 999 := by simp [daysOf, hnone]
    rw [hda] at h
    have h999 : urgencyBucket (999 : Int) = 3 := by decide
    rw [h999] at h
    have hbb : urgencyBucket (daysOf b) ≤ 3 := by
      unfold urgencyBucket
      split_ifs <;> omega
    simp only [priorityLe, Bool.or_eq_true, Bool.and_eq_true, decide_eq_true_eq] at h
    intro hle90
    rcases h with h | ⟨_, hd⟩
    · omega
    · omega
  · intro a hnone
    have hda : daysOf a = 999 := by simp [daysOf, hnone]
    exact ⟨hda, by rw [hda]; decide⟩

/-- Sorting does not change the number of records. -/
theorem length_sort_by_deadline (l : List Opportunity) :
    (sort_by_deadline l).length = l.length := by
  simp [sort_by_deadline]

/-- The European adapter caps its result at its limit. -/
theorem search_european_le (env : SearchEnv) (k r : String) (lim : Nat) :
    (search_european_subventions env k r lim).length ≤ lim := by
  simp only [search_european_subventions]
  exact List.length_take_le _ _

/-- The Colombian adapter caps its result at a non-zero limit. -/
theorem search_colombian_le (env : SearchEnv) (k r : String) (lim : Nat) (h : lim ≠ 0) :
    (search_colombian_funding env k r lim).length ≤ lim := by
  simp only [search_colombian_funding, if_pos h]
  exact List.length_take_le _ _

/-- The sample fallback returns at most its three records. -/
theorem sample_french_data_le (env : SearchEnv) (k r : String) :
    (sample_french_data env k r).length ≤ 3 := by
  unfold sample_french_data
  split
  · exact le_trans (List.length_filter_le _ _) (by simp)
  · simp

/-- C4 amended.  `search_all` divides the limit by the number of active
sources (floor division) and invokes each adapter with that share; the
European and Colombian lists contain at most that share of records (the
Colombian one whenever the share is positive); a disabled source yields an
empty list; but the French list is capped only by the upstream API — the
aggregator returns exactly as many French records as the adapter produced,
and on the authentication/transport-failure fallback the sample dataset
(at most 3 records) is returned regardless of the share. -/
theorem search_all_limit_split (env : SearchEnv) (k r er cr : String) (ie ic : Bool)
    (lim : Nat) :
    search_all env k r er cr ie ic lim =
      { french := sort_by_deadline (search_subventions env k r
          (lim / (1 + (if ie then 1 else 0) + (if ic then 1 else 0)))),
        european := sort_by_deadline (if ie then search_european_subventions env k er
          (lim / (1 + (if ie then 1 else 0) + (if ic then 1 else 0))) else []),
        colombian := sort_by_deadline (if ic then search_colombian_funding env k cr
          (lim / (1 + (if ie then 1 else 0) + (if ic then 1 else 0))) else []) } ∧
    (search_all env k r er cr ie ic lim).european.length
      ≤ lim / (1 + (if ie then 1 else 0) + (if ic then 1 else 0)) ∧
    (0 < lim / (1 + (if ie then 1 else 0) + (if ic then 1 else 0)) →
      (search_all env k r er cr ie ic lim).colombian.length
        ≤ lim / (1 + (if ie then 1 else 0) + (if ic then 1 else 0))) ∧
    (ie = false → (search_all env k r er cr ie ic lim).european = []) ∧
    (ic = false → (search_all env k r er cr ie ic lim).colombian = []) ∧
    (∀ raws : List FrenchRawAid,
      env.frenchApi k r (lim / (1 + (if ie then 1 else 0) + (if ic then 1 else 0)))
          = FrenchApiOutcome.ok raws →
      (search_all env k r er cr ie ic lim).french.length = raws.length) ∧
    ((env.frenchApi k r (lim / (1 + (if ie then 1 else 0) + (if ic then 1 else 0)))
          = FrenchApiOutcome.authRequired ∨
      env.frenchApi k r (lim / (1 + (if ie then 1 else 0) + (if ic then 1 else 0)))
          = FrenchApiOutcome.requestFailed) →
      (search_all env k r er cr ie ic lim).french.length ≤ 3) := by
  refine ⟨rfl, ?_, ?_, ?_, ?_, ?_, ?_⟩
  · show (sort_by_deadline _).length ≤ _
    rw [length_sort_by_deadline]
    by_cases hie : ie
    · rw [if_pos hie]
      exact search_european_le env k er _
    · rw [if_neg hie]
      exact Nat.zero_le _
  · intro hpos
    show (sort_by_deadline _).length ≤ _
    rw [length_sort_by_deadline]
    by_cases hic : ic
    · rw [if_pos hic]
      exact search_colombian_le env k cr _ (Nat.pos_iff_ne_zero.mp hpos)
    · rw [if_neg hic]
      exact Nat.zero_le _
  · intro hie
    show sort_by_deadline _ = _
    rw [hie]
    simp [sort_by_deadline]
  · intro hic
    show sort_by_deadline _ = _
    rw [hic]
    simp [sort_by_deadline]
  · intro raws hok
    show (sort_by_deadline (search_subventions env k r _)).length = _
    rw [length_sort_by_deadline]
    simp only [search_subventions, hok, List.length_map]
  · intro hfb
    show (sort_by_deadline (search_subventions env k r _)).length ≤ 3
    rw [length_sort_by_deadline]
    rcases hfb with hfb | hfb
    · simp only [search_subventions, hfb]
      exact sample_french_data_le env k r
    · simp only [search_subventions, hfb]
      exact sample_french_data_le env k r

/-- C4 counterexample: with only the French source active and `limit = 2`,
the allotted French share is `2 / 1 = 2`, yet the aggregator returns 3
French records — the sample fallback is not capped at the share. -/
theorem search_all_french_exceeds_share :
    (search_all sampleEnv "" "" "" "" false false 2).french.length = 3 ∧
    (2 : Nat) / 1 = 2 ∧ ¬ (3 ≤ 2) := by
  refine ⟨?_, by decide, by decide⟩
  show (sort_by_deadline (search_subventions sampleEnv "" "" _)).length = 3
  rw [length_sort_by_deadline]
  rfl

/-- C4 witness (spec scenario C): with `include_european = false`,
`include_colombian = false`, `limit = 10` and the French fallback, the
aggregator returns no European and no Colombian records and at most
10 (indeed at most 3) French records. -/
theorem search_all_limit_split_witness :
    (search_all sampleEnv "" "" "" "" false false 10).european = [] ∧
    (search_all sampleEnv "" "" "" "" false false 10).colombian = [] ∧
    (search_all sampleEnv "" "" "" "" false false 10).french.length ≤ 3 ∧
    (search_all sampleEnv "" "" "" "" false false 10).french.length ≤ 10 ∧
    (0 : Nat) < 10 / (1 + 0 + 0) ∧
    (search_all sampleEnv "" "" "" "" false false 10).colombian.length ≤ 10 / (1 + 0 + 0) :=
  have h := search_all_limit_split sampleEnv "" "" "" "" false false 10
  have hfr : (search_all sampleEnv "" "" "" "" false false 10).french.length ≤ 3 :=
    h.2.2.2.2.2.2 (Or.inl rfl)
  ⟨h.2.2.2.1 rfl, h.2.2.2.2.1 rfl, hfr, le_trans hfr (by decide),
   by decide, h.2.2.1 (by decide)⟩

/-- C7 counterexample: the first Colombian record has no `amount_max` key at
all, yet the aggregation loop coerces the `get` default `'0'` into a
contribution of 0 — contradicting the claim that a record contributes iff
its `amount_max` value strips to a non-empty digit string. -/
theorem analysis_amounts_missing_key_coerced :
    ((culture_opportunities sampleEnv).headD default).amount_max = none ∧
    analysis_amounts [(culture_opportunities sampleEnv).headD default] = [0] :=
  ⟨rfl, rfl⟩

/-- C7 amended: a present `amount_max` value contributes exactly when it
strips to a non-empty digit string (so `"50,000"` contributes 50000 and
`"N/A"` is excluded, not coerced to 0), but a record with no `amount_max`
key defaults to the string `'0'` and contributes 0 to the aggregate. -/
theorem analysis_amounts_spec :
    (∀ (r : Opportunity) (rest : List Opportunity),
      analysis_amounts (r :: rest) =
        (match r.amount_max with
         | some s => if claimPlainInteger s then [strToNat (stripAmount s)] else []
         | none => [0]) ++ analysis_amounts rest) ∧
    analysis_amounts [({ amount_max := some "50,000" } : Opportunity)] = [50000] ∧
    analysis_amounts [({ amount_max := some "N/A" } : Opportunity)] = [] ∧
    analysis_amounts [({ amount_max := some "€75,000 EUR" } : Opportunity)] = [75000] ∧
    total_funding [({ amount_max := some "50,000" } : Opportunity),
      ({ amount_max := some "N/A" } : Opportunity)] = 50000 := by
  refine ⟨?_, by decide, by decide, by decide, by decide⟩
  intro r rest
  cases hr : r.amount_max with
  | none =>
    simp only [analysis_amounts, hr, Option.getD]
    rfl
  | some s =>
    simp only [analysis_amounts, hr, Option.getD, claimPlainInteger]
    split
    · rfl
    · rfl

end Scroller
